import Mathlib

/-!
ConsoleStatCalc.cc (aria2): the console progress reporter.

A shallow embedding of `src/ConsoleStatCalc.cc`.

* Text written to a stream is a `String`; one `Char` stands for one C++ `char`.
* A computation that can execute an integer division by zero returns `none`
  (the C++ behaviour is undefined there); every other result is `some`.
* Unsigned machine integers are `Nat` reduced modulo `2 ^ bits`.
* The headers of the collaborators (`RequestGroup.h`, `TransferStat.h`,
  `Util.h`, `TimeA2.h`, the entry and manager headers) are not part of the source
  tree under study: what the code needs of them is collected in `Ext` and in
  the plain records below.
-/

namespace aria2

/-! ## Declarations the file depends on -/

/-- Everything `ConsoleStatCalc.cc` uses without defining it.
`lenBits` is the width of the unsigned length type returned by
`getTotalLength`, `getCompletedLength`, `getCurrentLength` and
`getAllTimeUploadLength`; `uintBits` is the width of `unsigned int`.
`abbrevSize` and `secfmt` are `Util::abbrevSize` and `Util::secfmt`.
`fixed p n d` is the text a stream in `std::fixed` mode with
`std::setprecision(p)` writes for the `double` obtained by dividing the integer
`n` by the floating constant `d` (`d` is `10` or `1024` here).
The two booleans are the preprocessor switches of the file. -/
structure Ext where
  lenBits : Nat
  uintBits : Nat
  abbrevSize : Nat → String
  secfmt : Nat → String
  fixed : Nat → Nat → Nat → String
  ENABLE_BITTORRENT : Bool
  ENABLE_MESSAGE_DIGEST : Bool

/-- The record `TransferStat`, as far as the reporter reads it. -/
structure TransferStat where
  downloadSpeed : Nat
  uploadSpeed : Nat
  sessionUploadLength : Nat
  allTimeUploadLength : Nat
  deriving DecidableEq, Repr

/-- What the reporter reads of a `RequestGroup`. `isBtContext` is the outcome of
`!dynamic_pointer_cast<BtContext>(rg->getDownloadContext()).isNull()` and `stat`
is the value of `rg->calculateStat()`. -/
structure RequestGroup where
  gid : Int
  totalLength : Nat
  completedLength : Nat
  numConnection : Nat
  downloadFinished : Bool
  isBtContext : Bool
  filePath : String
  stat : TransferStat
  deriving DecidableEq, Repr

/-- What the reporter reads of a `RequestGroupMan`: the groups in registry order
(`getRequestGroups`), the aggregate `downloadFinished()` and the aggregate
`calculateStat()`. -/
structure RequestGroupMan where
  requestGroups : List RequestGroup
  downloadFinished : Bool
  stat : TransferStat
  deriving DecidableEq, Repr

/-- What the reporter reads of a `FileAllocationEntry` or a
`CheckIntegrityEntry`: the GID of its request group and the two lengths. -/
structure ProgressEntry where
  gid : Int
  currentLength : Nat
  totalLength : Nat
  deriving DecidableEq, Repr

/-- What the reporter reads of a `FileAllocationMan`:
`getCurrentFileAllocationEntry()` (a null handle is `none`) and
`countFileAllocationEntryInQueue()`. -/
structure FileAllocationMan where
  currentFileAllocationEntry : Option ProgressEntry
  countFileAllocationEntryInQueue : Nat
  deriving DecidableEq, Repr

/-- What the reporter reads of a `CheckIntegrityMan`:
`getFirstCheckIntegrityEntry()` (a null handle is `none`) and
`countCheckIntegrityEntry()`. -/
structure CheckIntegrityMan where
  firstCheckIntegrityEntry : Option ProgressEntry
  countCheckIntegrityEntry : Nat
  deriving DecidableEq, Repr

/-- Modelled from the spec: `RequestGroupMan::countRequestGroup()`, whose definition is
not part of the source tree. The registry owns an ordered collection of tasks and
exposes its count: the number of groups held. -/
def RequestGroupMan.countRequestGroup (man : RequestGroupMan) : Nat :=
  man.requestGroups.length

/-! ## Machine arithmetic -/

/-- Unsigned multiplication in a `bits`-wide type. -/
def mulWrap (bits a b : Nat) : Nat := (a * b) % 2 ^ bits

/-- Unsigned subtraction in a `bits`-wide type (wraps around below zero). -/
def subWrap (bits a b : Nat) : Nat := (((a : Int) - (b : Int)) % (2 : Int) ^ bits).toNat

/-- Integer division as the machine performs it: no result for a zero divisor. -/
def cdiv (a b : Nat) : Option Nat := if b = 0 then none else some (a / b)

/-- The expression `100*current/total` on the length type. -/
def percent (env : Ext) (current total : Nat) : Option Nat :=
  cdiv (mulWrap env.lenBits 100 current) total

/-! ## Stream formatting -/

/-- The text `o << std::setfill(fill) << std::setw(w) << c` writes for a `char`
`c`: the character, right-adjusted in a field of `w` columns. -/
def setwFill (fill : Char) (w : Nat) (c : Char) : String :=
  String.mk (List.replicate (w - 1) fill ++ [c])

/-! ## printProgress (lines 58-110) -/

/-- Lines 61-64: the local `unsigned int eta`. -/
def etaOf (env : Ext) (rg : RequestGroup) : Option Nat :=
  if rg.totalLength > 0 ∧ rg.stat.downloadSpeed > 0 then
    (cdiv (subWrap env.lenBits rg.totalLength rg.completedLength) rg.stat.downloadSpeed).map
      (fun q => q % 2 ^ env.uintBits)
  else
    some 0

/-- Line 73, the integer part of the expression:
`(stat.getAllTimeUploadLength()*10)/rg->getCompletedLength()`. -/
def seedTenths (env : Ext) (rg : RequestGroup) : Option Nat :=
  cdiv (mulWrap env.lenBits rg.stat.allTimeUploadLength 10) rg.completedLength

/-- Lines 68-89: what is written between `#<gid> ` and ` CN:`. -/
def progressBody (env : Ext) (rg : RequestGroup) : Option String :=
  if env.ENABLE_BITTORRENT && rg.downloadFinished && rg.isBtContext then
    (seedTenths env rg).map (fun t => "SEEDING" ++ "(" ++ "ratio:" ++ env.fixed 1 t 10 ++ ")")
  else
    (if rg.totalLength > 0 then
        (percent env rg.completedLength rg.totalLength).map
          (fun p => "(" ++ toString p ++ "%)")
      else some "").map
      (fun pct => "SIZE:" ++ env.abbrevSize rg.completedLength ++ "B" ++ "/"
        ++ env.abbrevSize rg.totalLength ++ "B" ++ pct)

/-- Lines 90-92. -/
def cnField (rg : RequestGroup) : String :=
  " " ++ "CN:" ++ toString rg.numConnection

/-- Lines 93-97. -/
def spdField (env : Ext) (rg : RequestGroup) : String :=
  if !rg.downloadFinished then
    " " ++ "SPD:" ++ env.fixed 2 rg.stat.downloadSpeed 1024 ++ "KiB/s"
  else ""

/-- Lines 98-103. -/
def upField (env : Ext) (rg : RequestGroup) : String :=
  if rg.stat.sessionUploadLength > 0 then
    " " ++ "UP:" ++ env.fixed 2 rg.stat.uploadSpeed 1024 ++ "KiB/s"
      ++ "(" ++ env.abbrevSize rg.stat.allTimeUploadLength ++ "B)"
  else ""

/-- Lines 104-108. -/
def etaField (env : Ext) (eta : Nat) : String :=
  if eta > 0 then " " ++ "ETA:" ++ env.secfmt eta else ""

/-- The function `printProgress`: the text it appends to the stream `o`. -/
def printProgress (env : Ext) (rg : RequestGroup) : Option String :=
  (etaOf env rg).bind fun eta =>
  (progressBody env rg).bind fun body =>
  some ("[" ++ "#" ++ toString rg.gid ++ " " ++ body ++ cnField rg ++ spdField env rg
    ++ upField env rg ++ etaField env eta ++ "]")

/-! ## printProgressSummary (lines 112-151) -/

/-- The call operator `PrintSummary::operator()` (lines 119-126). -/
def printSummaryEntry (env : Ext) (cols : Nat) (rg : RequestGroup) : Option String :=
  (printProgress env rg).map fun p =>
    p ++ "\n" ++ "FILE: " ++ rg.filePath ++ "\n" ++ setwFill '-' cols '-' ++ "\n"

/-- The `std::for_each` of line 150. -/
def printSummaryEntries (env : Ext) (cols : Nat) : List RequestGroup → Option String
  | [] => some ""
  | rg :: rest =>
    (printSummaryEntry env cols rg).bind fun e =>
    (printSummaryEntries env cols rest).map fun es => e ++ es

/-- Lines 141-144: the buffer cut at its first line feed. -/
def cutAtLineFeed (buf : String) : String :=
  String.mk (buf.data.takeWhile (fun c => c != '\n'))

/-- The function `printProgressSummary`. `asctime` is the buffer filled by
`asctime_r`, or `none` when `time`, `localtime` or `asctime_r` fails. -/
def printProgressSummary (env : Ext) (groups : List RequestGroup) (cols : Nat)
    (asctime : Option String) : Option String :=
  (printSummaryEntries env cols groups).map fun es =>
    " *** Download Progress Summary"
      ++ (match asctime with
          | some buf => " as of " ++ cutAtLineFeed buf
          | none => "")
      ++ " *** " ++ "\n" ++ setwFill '=' cols '=' ++ "\n" ++ es

/-! ## ConsoleStatCalc -/

/-- The object state: the checkpoint `_cp` (microseconds), `_summaryInterval`
and `_summaryIntervalCount` (both `time_t`). -/
structure ConsoleStatCalc where
  _cp : Nat
  _summaryInterval : Int
  _summaryIntervalCount : Int
  deriving DecidableEq, Repr

/-- The constructor (lines 153-156); `now` is the clock reading the default
constructed checkpoint takes. -/
def ConsoleStatCalc.new (summaryInterval : Int) (now : Nat) : ConsoleStatCalc :=
  { _cp := now, _summaryInterval := summaryInterval, _summaryIntervalCount := 0 }

/-- Modelled from the spec: `Time::elapsed(sec)` of `TimeA2`, which is not part of
the source tree. The gate passes unless less than `sec` time units (seconds,
counted here in microseconds) have gone by since the checkpoint. -/
def elapsed (cp sec now : Nat) : Bool := decide (cp + sec * 1000000 ≤ now)

/-- What one call of `calculateStat` reads from outside the object: the clock,
the result of `isatty(STDOUT_FILENO)`, the column count `ws_col` when
`ioctl(TIOCGWINSZ)` returns 0 (`none` when it fails), the `asctime_r` buffer
(see `printProgressSummary`) and the three managers. -/
structure Tick where
  now : Nat
  isatty : Int
  ioctl : Option Nat
  asctime : Option String
  requestGroupMan : RequestGroupMan
  fileAllocationMan : FileAllocationMan
  checkIntegrityMan : CheckIntegrityMan
  deriving DecidableEq, Repr

/-- What one call wrote to `std::cout`, in the order written: the erase sequence
of line 176, the summary block with its closing line feed (lines 181-183) and
the status text of lines 256-268. A part that was not written is `none`. -/
structure Written where
  erase : Option String
  summary : Option String
  status : Option String
  deriving DecidableEq, Repr

/-- Nothing written. -/
def Written.nothing : Written := { erase := none, summary := none, status := none }

/-- The characters that reached `std::cout`. -/
def Written.text (w : Written) : String :=
  w.erase.getD "" ++ w.summary.getD "" ++ w.status.getD ""

/-- Lines 169-175: the local `cols`. -/
def detectCols (t : Tick) : Nat :=
  if t.isatty = 1 then
    match t.ioctl with
    | some ws_col => ws_col
    | none => 80
  else 80

/-- Line 176. -/
def eraseSequence (cols : Nat) : String :=
  "\r" ++ setwFill ' ' cols ' ' ++ "\r"

/-- The condition of lines 179-180, on the counter already incremented. -/
def summaryDue (interval count : Int) (man : RequestGroupMan) : Bool :=
  decide (man.countRequestGroup > 0) && (decide (interval > 0) && (count.tmod interval == 0))

/-- Lines 186-194: the block of the first group and the `more...` suffix. -/
def firstGroupSegment (env : Ext) (man : RequestGroupMan) : Option String :=
  if man.countRequestGroup > 0 then
    match man.requestGroups with
    | [] => some ""
    | firstRequestGroup :: _ =>
      (printProgress env firstRequestGroup).map fun p =>
        p ++ (if man.countRequestGroup > 1 then
                "(" ++ toString (man.countRequestGroup - 1) ++ "more...)"
              else "")
  else some ""

/-- Lines 197-203. -/
def totalSpeedSegment (env : Ext) (man : RequestGroupMan) : String :=
  if man.countRequestGroup > 1 && !man.downloadFinished then
    " " ++ "[TOTAL SPD:" ++ env.fixed 2 man.stat.downloadSpeed 1024 ++ "KiB/s" ++ "]"
  else ""

/-- Lines 205-230. -/
def fileAllocSegment (env : Ext) (fam : FileAllocationMan) : Option String :=
  match fam.currentFileAllocationEntry with
  | none => some ""
  | some entry =>
    (if entry.totalLength > 0 then
        (percent env entry.currentLength entry.totalLength).map (fun p => toString p)
      else some "--").map fun pct =>
      " " ++ "[FileAlloc:" ++ "#" ++ toString entry.gid ++ " "
        ++ env.abbrevSize entry.currentLength ++ "B" ++ "/"
        ++ env.abbrevSize entry.totalLength ++ "B" ++ "(" ++ pct ++ "%)" ++ "]"
        ++ (if fam.countFileAllocationEntryInQueue > 0 then
              "(" ++ toString fam.countFileAllocationEntryInQueue ++ "waiting...)"
            else "")

/-- Lines 231-254. -/
def checksumSegment (env : Ext) (cim : CheckIntegrityMan) : Option String :=
  if env.ENABLE_MESSAGE_DIGEST then
    match cim.firstCheckIntegrityEntry with
    | none => some ""
    | some entry =>
      (percent env entry.currentLength entry.totalLength).map fun p =>
        " " ++ "[Checksum:" ++ "#" ++ toString entry.gid ++ " "
          ++ env.abbrevSize entry.currentLength ++ "B" ++ "/"
          ++ env.abbrevSize entry.totalLength ++ "B" ++ "(" ++ toString p ++ "%)" ++ "]"
          ++ (if cim.countCheckIntegrityEntry > 1 then
                "(" ++ toString (cim.countCheckIntegrityEntry - 1) ++ "more...)"
              else "")
  else some ""

/-- Lines 178-255 without the summary: the string `readout` taken from the
string stream `o`. -/
def composeReadout (env : Ext) (t : Tick) : Option String :=
  (firstGroupSegment env t.requestGroupMan).bind fun first =>
  (fileAllocSegment env t.fileAllocationMan).bind fun alloc =>
  (checksumSegment env t.checkIntegrityMan).bind fun check =>
  some (first ++ totalSpeedSegment env t.requestGroupMan ++ alloc ++ check)

/-- Lines 256-268: what is copied to `std::cout` for the readout. -/
def statusText (isTTY : Bool) (cols : Nat) (readout : String) : String :=
  if isTTY then
    if readout.length > cols then String.mk (readout.data.take cols) else readout
  else
    readout ++ "\n"

/-- The method `ConsoleStatCalc::calculateStat` (lines 158-269): the new object
state and what was written. -/
def calculateStat (env : Ext) (self : ConsoleStatCalc) (t : Tick) :
    Option (ConsoleStatCalc × Written) :=
  if !elapsed self._cp 1 t.now then
    some (self, Written.nothing)
  else
    let count := self._summaryIntervalCount + 1
    let isTTY : Bool := decide (t.isatty = 1)
    let cols := detectCols t
    let due := summaryDue self._summaryInterval count t.requestGroupMan
    (if due then
        (printProgressSummary env t.requestGroupMan.requestGroups cols t.asctime).map
          (fun s => some (s ++ "\n"))
      else some none).bind fun summary =>
    (composeReadout env t).bind fun readout =>
    some ({ _cp := t.now
            _summaryInterval := self._summaryInterval
            _summaryIntervalCount := if due then 0 else count },
          { erase := if isTTY then some (eraseSequence cols) else none
            summary := summary
            status := some (statusText isTTY cols readout) })

/-- A sequence of calls on one object, with everything each call wrote. -/
def runTicks (env : Ext) : ConsoleStatCalc → List Tick → Option (ConsoleStatCalc × List Written)
  | self, [] => some (self, [])
  | self, t :: rest =>
    (calculateStat env self t).bind fun r =>
    (runTicks env r.1 rest).map fun rs => (rs.1, r.2 :: rs.2)

/-- A decimal rendering with `p` fractional digits of `n / d`, rounded half up;
it stands in for the floating-point output of the stream in the examples. -/
def fixedSample (p n d : Nat) : String :=
  let scaled := (n * 10 ^ p * 2 + d) / (2 * d)
  let frac := toString (scaled % 10 ^ p)
  toString (scaled / 10 ^ p) ++ "."
    ++ String.mk (List.replicate (p - frac.length) '0') ++ frac

/-- The instance used to evaluate the embedding on concrete inputs: 64-bit
lengths, 32-bit `unsigned int`, plain decimal numbers for `abbrevSize` and
`secfmt`, both preprocessor switches on. -/
def sampleExt : Ext :=
  { lenBits := 64
    uintBits := 32
    abbrevSize := fun n => toString n
    secfmt := fun n => toString n ++ "s"
    fixed := fixedSample
    ENABLE_BITTORRENT := true
    ENABLE_MESSAGE_DIGEST := true }

/-- A download in progress: 50 of 200 bytes at 100 bytes per second. -/
def someGroup : RequestGroup :=
  { gid := 1, totalLength := 200, completedLength := 50, numConnection := 3
    downloadFinished := false, isBtContext := false, filePath := "a.iso"
    stat := { downloadSpeed := 100, uploadSpeed := 0, sessionUploadLength := 0
              allTimeUploadLength := 0 } }

/-- A call at clock reading `now` with the given terminal answers and groups; no
allocation and no integrity check is under way. -/
def tickAt (now : Nat) (isatty : Int) (ioctl : Option Nat) (groups : List RequestGroup) : Tick :=
  { now := now, isatty := isatty, ioctl := ioctl, asctime := some "Sun Nov  1 12:00:00 2026\n"
    requestGroupMan := { requestGroups := groups, downloadFinished := false
                         stat := { downloadSpeed := 100, uploadSpeed := 0
                                   sessionUploadLength := 0, allTimeUploadLength := 0 } }
    fileAllocationMan := { currentFileAllocationEntry := none
                           countFileAllocationEntryInQueue := 0 }
    checkIntegrityMan := { firstCheckIntegrityEntry := none, countCheckIntegrityEntry := 0 } }

/-- Four calls one second apart on a terminal four columns wide, one group each. -/
def fourTicks : List Tick :=
  [tickAt 1000000 1 (some 4) [someGroup], tickAt 2000000 1 (some 4) [someGroup],
   tickAt 3000000 1 (some 4) [someGroup], tickAt 4000000 1 (some 4) [someGroup]]

/-- The run of `fourTicks` on an object built at clock reading 0 with summary
interval 2. -/
def fourTicksRun : ConsoleStatCalc × List Written :=
  (runTicks sampleExt (ConsoleStatCalc.new 2 0) fourTicks).getD (ConsoleStatCalc.new 2 0, [])

/-- What the fourth call of `fourTicks` writes. -/
def fourthWritten : Written :=
  { erase := some "\r    \r"
    summary := some (" *** Download Progress Summary as of Sun Nov  1 12:00:00 2026 *** \n"
      ++ "====\n" ++ "[#1 SIZE:50B/200B(25%) CN:3 SPD:0.10KiB/s ETA:1s]\n" ++ "FILE: a.iso\n"
      ++ "----\n" ++ "\n")
    status := some "[#1 " }

/-- A download of 184467440737095517 bytes, all of them completed: both lengths
are below `2 ^ 63`, and 100 times the completed length is `2 ^ 64 + 84`. -/
def hugeGroup : RequestGroup :=
  { gid := 1, totalLength := 184467440737095517, completedLength := 184467440737095517
    numConnection := 3, downloadFinished := false, isBtContext := false, filePath := "a.iso"
    stat := { downloadSpeed := 100, uploadSpeed := 0, sessionUploadLength := 0
              allTimeUploadLength := 0 } }

/-- A download with `completed` of 1000 bytes done, at 100 bytes per second. -/
def partGroup (completed : Nat) : RequestGroup :=
  { gid := 1, totalLength := 1000, completedLength := completed, numConnection := 3
    downloadFinished := false, isBtContext := false, filePath := "a.iso"
    stat := { downloadSpeed := 100, uploadSpeed := 0, sessionUploadLength := 0
              allTimeUploadLength := 0 } }

/-- A download of 1000 bytes, 400 done, that has stalled: speed 0. -/
def stalledGroup : RequestGroup :=
  { gid := 1, totalLength := 1000, completedLength := 400, numConnection := 3
    downloadFinished := false, isBtContext := false, filePath := "a.iso"
    stat := { downloadSpeed := 0, uploadSpeed := 0, sessionUploadLength := 0
              allTimeUploadLength := 0 } }

/-- A finished BitTorrent download of `completed` bytes that has uploaded `up`
bytes in all. -/
def seeder (up completed : Nat) : RequestGroup :=
  { gid := 7, totalLength := completed, completedLength := completed, numConnection := 2
    downloadFinished := true, isBtContext := true, filePath := "b.torrent"
    stat := { downloadSpeed := 0, uploadSpeed := 2048, sessionUploadLength := 10
              allTimeUploadLength := up } }

/-- A call off a terminal with an empty registry and a current allocation entry
of group 3 with the given lengths, `queued` entries waiting behind it. -/
def allocTick (current total queued : Nat) : Tick :=
  { now := 1000000, isatty := 0, ioctl := none, asctime := none
    requestGroupMan := { requestGroups := [], downloadFinished := true
                         stat := { downloadSpeed := 0, uploadSpeed := 0
                                   sessionUploadLength := 0, allTimeUploadLength := 0 } }
    fileAllocationMan := { currentFileAllocationEntry :=
                             some { gid := 3, currentLength := current, totalLength := total }
                           countFileAllocationEntryInQueue := queued }
    checkIntegrityMan := { firstCheckIntegrityEntry := none, countCheckIntegrityEntry := 0 } }

/-- A call off a terminal with an empty registry, no allocation, and an integrity
check of group 4 at the head of a queue of `queued` entries. -/
def checkTick (current total queued : Nat) : Tick :=
  { now := 1000000, isatty := 0, ioctl := none, asctime := none
    requestGroupMan := { requestGroups := [], downloadFinished := true
                         stat := { downloadSpeed := 0, uploadSpeed := 0
                                   sessionUploadLength := 0, allTimeUploadLength := 0 } }
    fileAllocationMan := { currentFileAllocationEntry := none
                           countFileAllocationEntryInQueue := 0 }
    checkIntegrityMan := { firstCheckIntegrityEntry :=
                             some { gid := 4, currentLength := current, totalLength := total }
                           countCheckIntegrityEntry := queued } }

/-- The instance `sampleExt` built without message digest support: lines 231-254
are compiled out. -/
def noDigestExt : Ext :=
  { lenBits := 64
    uintBits := 32
    abbrevSize := fun n => toString n
    secfmt := fun n => toString n ++ "s"
    fixed := fixedSample
    ENABLE_BITTORRENT := true
    ENABLE_MESSAGE_DIGEST := false }

/-! ## Theorems -/

/-! ### The gate (lines 163-167) -/

theorem calculateStat_gated (env : Ext) (self : ConsoleStatCalc) (t : Tick)
    (h : t.now < self._cp + 1000000) :
    calculateStat env self t = some (self, Written.nothing) := by
  have hg : elapsed self._cp 1 t.now = false := by
    simp only [elapsed, decide_eq_false_iff_not]; omega
  simp [calculateStat, hg]

theorem calculateStat_passed (env : Ext) (self : ConsoleStatCalc) (t : Tick)
    (h : self._cp + 1000000 ≤ t.now) :
    calculateStat env self t =
      (if summaryDue self._summaryInterval (self._summaryIntervalCount + 1) t.requestGroupMan then
          (printProgressSummary env t.requestGroupMan.requestGroups (detectCols t) t.asctime).map
            (fun s => some (s ++ "\n"))
        else some none).bind fun summary =>
      (composeReadout env t).bind fun readout =>
      some ({ _cp := t.now
              _summaryInterval := self._summaryInterval
              _summaryIntervalCount :=
                if summaryDue self._summaryInterval (self._summaryIntervalCount + 1)
                    t.requestGroupMan then 0
                else self._summaryIntervalCount + 1 },
            { erase := if decide (t.isatty = 1) then some (eraseSequence (detectCols t)) else none
              summary := summary
              status := some (statusText (decide (t.isatty = 1)) (detectCols t) readout) }) := by
  have hg : elapsed self._cp 1 t.now = true := by
    simp only [elapsed, decide_eq_true_eq]; omega
  simp [calculateStat, hg]

theorem passed_tick_writes (env : Ext) (self st1 : ConsoleStatCalc) (t : Tick) (w1 : Written)
    (h : self._cp + 1000000 ≤ t.now) (hr : calculateStat env self t = some (st1, w1)) :
    w1.text ≠ "" ∧ st1._cp = t.now := by
  rw [calculateStat_passed env self t h] at hr
  simp only [Option.bind_eq_some, Option.some.injEq, Prod.mk.injEq] at hr
  obtain ⟨summary, -, readout, -, hst, hw⟩ := hr
  subst hst hw
  refine ⟨?_, rfl⟩
  intro hempty
  have hlen := congrArg String.length hempty
  have hcr : "\r".length = 1 := rfl
  have hlf : "\n".length = 1 := rfl
  by_cases htty : t.isatty = 1
  · simp [Written.text, htty, eraseSequence, String.length_append, hcr] at hlen
  · simp [Written.text, htty, statusText, String.length_append, hlf] at hlen

theorem runTicks_all_gated (env : Ext) (self : ConsoleStatCalc) (rest : List Tick)
    (h : ∀ u ∈ rest, u.now < self._cp + 1000000) :
    runTicks env self rest = some (self, rest.map (fun _ => Written.nothing)) := by
  induction rest with
  | nil => rfl
  | cons u us ih =>
    have hu := calculateStat_gated env self u (h u (List.mem_cons_self u us))
    have hus := ih (fun v hv => h v (List.mem_cons_of_mem u hv))
    simp [runTicks, hu, hus]

/-- C1: a call made less than one second after the checkpoint writes nothing and
returns the object state unchanged, whatever the state and the snapshot; and in
a sequence of calls of which only the first passes the gate, the first call
writes something and every later call writes nothing and keeps the state the
first call left. -/
theorem gated_calls_are_silent (env : Ext) :
    (∀ (self : ConsoleStatCalc) (t : Tick), t.now < self._cp + 1000000 →
        calculateStat env self t = some (self, Written.nothing)
          ∧ Written.nothing.text = "") ∧
    (∀ (self st1 : ConsoleStatCalc) (first : Tick) (rest : List Tick) (w1 : Written),
        self._cp + 1000000 ≤ first.now →
        calculateStat env self first = some (st1, w1) →
        (∀ u ∈ rest, u.now < first.now + 1000000) →
        runTicks env self (first :: rest)
            = some (st1, w1 :: rest.map (fun _ => Written.nothing))
          ∧ w1.text ≠ "") := by
  refine ⟨fun self t h => ⟨calculateStat_gated env self t h, rfl⟩, ?_⟩
  intro self st1 first rest w1 hpass hfirst hrest
  obtain ⟨hne, hcp⟩ := passed_tick_writes env self st1 first w1 hpass hfirst
  refine ⟨?_, hne⟩
  have hgated := runTicks_all_gated env st1 rest (fun u hu => by rw [hcp]; exact hrest u hu)
  simp [runTicks, hfirst, hgated]

/-- C1, at a concrete input: of three calls at 1.000000 s, 1.000001 s and
1.999999 s on an object built at 0 s, only the first writes. -/
theorem gated_calls_are_silent_witness :
    runTicks sampleExt (ConsoleStatCalc.new 1 0)
        [tickAt 1000000 0 none [], tickAt 1000001 0 none [someGroup],
         tickAt 1999999 1 none [someGroup]]
      = some ({ _cp := 1000000, _summaryInterval := 1, _summaryIntervalCount := 1 },
              [{ erase := none, summary := none, status := some "\n" },
               Written.nothing, Written.nothing])
    ∧ ({ erase := none, summary := none, status := some "\n" } : Written).text ≠ "" :=
  (gated_calls_are_silent sampleExt).2 (ConsoleStatCalc.new 1 0) _
    (tickAt 1000000 0 none []) [tickAt 1000001 0 none [someGroup],
      tickAt 1999999 1 none [someGroup]] _ (by decide) (by decide) (by decide)

/-! ### The summary schedule (lines 167, 179-184) -/

theorem summaryDue_iff (N c : Int) (man : RequestGroupMan) (hN : 0 < N) (hc : 0 ≤ c)
    (hcN : c < N) (hman : man.countRequestGroup > 0) :
    summaryDue N (c + 1) man = true ↔ c + 1 = N := by
  have htmod : (c + 1).tmod N = (c + 1) % N := Int.tmod_eq_emod (by omega) (by omega)
  simp only [summaryDue, hman, hN, decide_True, Bool.true_and, htmod, beq_iff_eq]
  constructor
  · intro h
    by_contra hne
    have hlt : c + 1 < N := by omega
    rw [Int.emod_eq_of_lt (by omega) hlt] at h
    omega
  · intro h
    rw [h]
    exact Int.emod_self

theorem calculateStat_step (env : Ext) (self st1 : ConsoleStatCalc) (t : Tick) (w : Written)
    (hpass : self._cp + 1000000 ≤ t.now) (hr : calculateStat env self t = some (st1, w)) :
    st1._cp = t.now ∧ st1._summaryInterval = self._summaryInterval
      ∧ (w.summary.isSome = true ↔
          summaryDue self._summaryInterval (self._summaryIntervalCount + 1) t.requestGroupMan
            = true)
      ∧ st1._summaryIntervalCount =
          (if summaryDue self._summaryInterval (self._summaryIntervalCount + 1)
              t.requestGroupMan then 0
           else self._summaryIntervalCount + 1) := by
  rw [calculateStat_passed env self t hpass] at hr
  simp only [Option.bind_eq_some, Option.some.injEq, Prod.mk.injEq] at hr
  obtain ⟨summary, hsum, readout, -, hst, hw⟩ := hr
  subst hst hw
  refine ⟨rfl, rfl, ?_, rfl⟩
  cases hdue : summaryDue self._summaryInterval (self._summaryIntervalCount + 1)
      t.requestGroupMan with
  | false =>
    simp only [hdue, Bool.false_eq_true, if_false, Option.some.injEq] at hsum
    simp [← hsum]
  | true =>
    simp only [hdue, if_true, Option.map_eq_some'] at hsum
    obtain ⟨s, -, hs⟩ := hsum
    simp [← hs]

theorem statusText_terminal (cols : Nat) (s : String) :
    statusText true cols s = String.mk (s.data.take (min s.length cols)) := by
  unfold statusText
  simp only [if_true]
  split
  · rename_i h
    rw [Nat.min_eq_right (Nat.le_of_lt h)]
  · rename_i h
    rw [Nat.min_eq_left (Nat.le_of_not_lt h)]
    have : s.data.take s.length = s.data := List.take_length s.data
    rw [this]

theorem length_take_data (n : Nat) (s : String) :
    (String.mk (s.data.take n)).length = min n s.length := by
  show (s.data.take n).length = min n s.data.length
  exact List.length_take n s.data

/-- C3: on a terminal (`isatty` answers 1), a call that passes the gate writes
the erase sequence and then, for the composed readout `s` and the detected width
`cols`, exactly the first `min |s| cols` characters of `s` and nothing after
them: the status text has `min |s| cols` characters, never more than `cols`, and
exactly 20 when `cols = 20` and `s` is longer than 20. -/
theorem terminal_status_is_truncated (env : Ext) (self st1 : ConsoleStatCalc) (t : Tick)
    (w : Written) (hpass : self._cp + 1000000 ≤ t.now) (htty : t.isatty = 1)
    (hr : calculateStat env self t = some (st1, w)) :
    ∃ s out : String, composeReadout env t = some s
      ∧ w.erase = some (eraseSequence (detectCols t))
      ∧ w.status = some out
      ∧ out = String.mk (s.data.take (min s.length (detectCols t)))
      ∧ out.length = min s.length (detectCols t)
      ∧ out.length ≤ detectCols t
      ∧ (detectCols t = 20 → 20 < s.length → out.length = 20) := by
  rw [calculateStat_passed env self t hpass] at hr
  simp only [Option.bind_eq_some, Option.some.injEq, Prod.mk.injEq] at hr
  obtain ⟨summary, -, readout, hread, -, hw⟩ := hr
  subst hw
  have hlen : (String.mk (readout.data.take (min readout.length (detectCols t)))).length
      = min readout.length (detectCols t) := by
    rw [length_take_data]
    exact Nat.min_eq_left (Nat.min_le_left _ _)
  refine ⟨readout, _, hread, by simp [htty], ?_, rfl, hlen, ?_, ?_⟩
  · simp only [htty, decide_True]
    rw [statusText_terminal]
  · rw [hlen]; exact Nat.min_le_right _ _
  · intro h20 hs
    rw [hlen, h20]
    exact Nat.min_eq_right (Nat.le_of_lt hs)

/-- C3, at a concrete input: on a terminal 20 columns wide the 49-character
readout of `someGroup` is cut to its first 20 characters. -/
theorem terminal_status_is_truncated_witness :
    ∃ s out : String, composeReadout sampleExt (tickAt 1000000 1 (some 20) [someGroup]) = some s
      ∧ ({ erase := some "\r                    \r", summary := none
           status := some "[#1 SIZE:50B/200B(25" } : Written).erase
          = some (eraseSequence (detectCols (tickAt 1000000 1 (some 20) [someGroup])))
      ∧ ({ erase := some "\r                    \r", summary := none
           status := some "[#1 SIZE:50B/200B(25" } : Written).status = some out
      ∧ out = String.mk (s.data.take
          (min s.length (detectCols (tickAt 1000000 1 (some 20) [someGroup]))))
      ∧ out.length = min s.length (detectCols (tickAt 1000000 1 (some 20) [someGroup]))
      ∧ out.length ≤ detectCols (tickAt 1000000 1 (some 20) [someGroup])
      ∧ (detectCols (tickAt 1000000 1 (some 20) [someGroup]) = 20 → 20 < s.length →
          out.length = 20) :=
  terminal_status_is_truncated sampleExt (ConsoleStatCalc.new 0 0)
    { _cp := 1000000, _summaryInterval := 0, _summaryIntervalCount := 1 }
    (tickAt 1000000 1 (some 20) [someGroup])
    { erase := some "\r                    \r", summary := none
      status := some "[#1 SIZE:50B/200B(25" }
    (by decide) (by decide) (by decide)

/-- C4: off a terminal (`isatty` does not answer 1), a call that passes the gate
writes no erase sequence and, for the composed readout `s` of whatever length,
the status text `s` followed by one line feed; together with the summary block,
if one is due, that is all the call writes. -/
theorem nonterminal_status_is_full_line (env : Ext) (self st1 : ConsoleStatCalc) (t : Tick)
    (w : Written) (hpass : self._cp + 1000000 ≤ t.now) (hnotty : t.isatty ≠ 1)
    (hr : calculateStat env self t = some (st1, w)) :
    ∃ s : String, composeReadout env t = some s
      ∧ w.erase = none
      ∧ w.status = some (s ++ "\n")
      ∧ w.text = w.summary.getD "" ++ (s ++ "\n") := by
  rw [calculateStat_passed env self t hpass] at hr
  simp only [Option.bind_eq_some, Option.some.injEq, Prod.mk.injEq] at hr
  obtain ⟨summary, -, readout, hread, -, hw⟩ := hr
  subst hw
  refine ⟨readout, hread, by simp [hnotty], by simp [hnotty, statusText], ?_⟩
  simp [Written.text, hnotty, statusText]

/-- C4, at a concrete input: with standard output not a terminal the whole
49-character readout of `someGroup` is written, followed by one line feed. -/
theorem nonterminal_status_is_full_line_witness :
    ∃ s : String, composeReadout sampleExt (tickAt 1000000 0 (some 20) [someGroup]) = some s
      ∧ ({ erase := none, summary := none
           status := some "[#1 SIZE:50B/200B(25%) CN:3 SPD:0.10KiB/s ETA:1s]\n" } : Written).erase
          = none
      ∧ ({ erase := none, summary := none
           status := some "[#1 SIZE:50B/200B(25%) CN:3 SPD:0.10KiB/s ETA:1s]\n" } : Written).status
          = some (s ++ "\n")
      ∧ ({ erase := none, summary := none
           status := some "[#1 SIZE:50B/200B(25%) CN:3 SPD:0.10KiB/s ETA:1s]\n" } : Written).text
          = ({ erase := none, summary := none
               status := some "[#1 SIZE:50B/200B(25%) CN:3 SPD:0.10KiB/s ETA:1s]\n" }
              : Written).summary.getD "" ++ (s ++ "\n") :=
  nonterminal_status_is_full_line sampleExt (ConsoleStatCalc.new 0 0)
    { _cp := 1000000, _summaryInterval := 0, _summaryIntervalCount := 1 }
    (tickAt 1000000 0 (some 20) [someGroup])
    { erase := none, summary := none
      status := some "[#1 SIZE:50B/200B(25%) CN:3 SPD:0.10KiB/s ETA:1s]\n" }
    (by decide) (by decide) (by decide)

/-! ### Machine arithmetic -/

theorem mulWrap_of_lt (bits a b : Nat) (h : a * b < 2 ^ bits) : mulWrap bits a b = a * b :=
  Nat.mod_eq_of_lt h

theorem subWrap_of_le (bits a b : Nat) (hba : b ≤ a) (ha : a < 2 ^ bits) :
    subWrap bits a b = a - b := by
  unfold subWrap
  have h1 : ((a : Int) - (b : Int)) = ((a - b : Nat) : Int) := by omega
  have h2 : ((2 : Int) ^ bits) = ((2 ^ bits : Nat) : Int) := by norm_cast
  rw [h1, h2, ← Int.natCast_mod, Int.toNat_ofNat]
  exact Nat.mod_eq_of_lt (by omega)

theorem cdiv_of_pos (a b : Nat) (hb : 0 < b) : cdiv a b = some (a / b) := by
  have : b ≠ 0 := by omega
  simp [cdiv, this]

theorem cdiv_zero (a : Nat) : cdiv a 0 = none := by
  simp [cdiv]

/-- The percentage is exact as long as `100 * current` fits the length type. -/
theorem percent_exact (env : Ext) (current total : Nat) (ht : 0 < total)
    (hfit : 100 * current < 2 ^ env.lenBits) :
    percent env current total = some (100 * current / total) := by
  rw [percent, mulWrap_of_lt _ _ _ hfit, cdiv_of_pos _ _ ht]

/-! ### The percent field of the task block (lines 77-89) -/

/-- With a total length of 0 the body of a task that is not seeding ends after
the two sizes: no percent is computed and no parenthesis is written. -/
theorem progressBody_unknown_total (env : Ext) (rg : RequestGroup)
    (hseed : (env.ENABLE_BITTORRENT && rg.downloadFinished && rg.isBtContext) = false)
    (ht : rg.totalLength = 0) :
    progressBody env rg = some ("SIZE:" ++ env.abbrevSize rg.completedLength ++ "B" ++ "/"
      ++ env.abbrevSize rg.totalLength ++ "B") := by
  simp [progressBody, hseed, ht]

/-- With a known total the body of a task that is not seeding carries the exact
truncated percentage, provided `100 * completed` fits the length type. -/
theorem progressBody_percent (env : Ext) (rg : RequestGroup)
    (hseed : (env.ENABLE_BITTORRENT && rg.downloadFinished && rg.isBtContext) = false)
    (ht : 0 < rg.totalLength) (hfit : 100 * rg.completedLength < 2 ^ env.lenBits) :
    progressBody env rg = some ("SIZE:" ++ env.abbrevSize rg.completedLength ++ "B" ++ "/"
      ++ env.abbrevSize rg.totalLength ++ "B"
      ++ ("(" ++ toString (100 * rg.completedLength / rg.totalLength) ++ "%)")) := by
  simp [progressBody, hseed, ht, percent_exact env _ _ ht hfit]

/-- C5, refuted as stated: with 64-bit lengths, a task that is not seeding and
whose completed and total length are both 184467440737095517 (below `2 ^ 63`) is
100 percent done in exact arithmetic, yet `100*completed` wraps to 84 and the
block shows `(0%)`. -/
theorem percent_wraps_on_large_length :
    hugeGroup.completedLength < 2 ^ sampleExt.lenBits
    ∧ hugeGroup.totalLength < 2 ^ sampleExt.lenBits
    ∧ 100 * hugeGroup.completedLength / hugeGroup.totalLength = 100
    ∧ percent sampleExt hugeGroup.completedLength hugeGroup.totalLength = some 0
    ∧ printProgress sampleExt hugeGroup
        = some "[#1 SIZE:184467440737095517B/184467440737095517B(0%) CN:3 SPD:0.10KiB/s]" :=
  ⟨by decide, by decide, by decide, by decide, by decide⟩

/-- The ETA computation never fails: its division is guarded by the speed. -/
theorem etaOf_some (env : Ext) (rg : RequestGroup) : ∃ eta, etaOf env rg = some eta := by
  unfold etaOf
  split
  · rename_i h
    rw [cdiv_of_pos _ _ h.2]
    exact ⟨_, rfl⟩
  · exact ⟨0, rfl⟩

/-- C5, amended: for a task that is not seeding (not both finished and a
BitTorrent download) the block is produced, and (a) when the total length is
> 0 and `100 * completed` fits the length type, the SIZE field is directly
followed by `(<p>%)` with `p` the decimal integer `floor(100*completed/total)`;
(b) when the total length is 0, the SIZE field is directly followed by the
connection field, with no parenthesis in between. -/
theorem size_percent_field (env : Ext) (rg : RequestGroup)
    (hseed : ¬ (rg.downloadFinished = true ∧ rg.isBtContext = true)) :
    ∃ eta, etaOf env rg = some eta
    ∧ (0 < rg.totalLength → 100 * rg.completedLength < 2 ^ env.lenBits →
        printProgress env rg = some ("[" ++ "#" ++ toString rg.gid ++ " "
          ++ ("SIZE:" ++ env.abbrevSize rg.completedLength ++ "B" ++ "/"
              ++ env.abbrevSize rg.totalLength ++ "B"
              ++ ("(" ++ toString (100 * rg.completedLength / rg.totalLength) ++ "%)"))
          ++ cnField rg ++ spdField env rg ++ upField env rg ++ etaField env eta ++ "]"))
    ∧ (rg.totalLength = 0 →
        printProgress env rg = some ("[" ++ "#" ++ toString rg.gid ++ " "
          ++ ("SIZE:" ++ env.abbrevSize rg.completedLength ++ "B" ++ "/"
              ++ env.abbrevSize rg.totalLength ++ "B")
          ++ cnField rg ++ spdField env rg ++ upField env rg ++ etaField env eta ++ "]")) := by
  have hs : (env.ENABLE_BITTORRENT && rg.downloadFinished && rg.isBtContext) = false := by
    cases hf : rg.downloadFinished <;> cases hb : rg.isBtContext <;> simp_all
  obtain ⟨eta, heta⟩ := etaOf_some env rg
  refine ⟨eta, heta, ?_, ?_⟩
  · intro ht hfit
    simp only [printProgress, heta, progressBody_percent env rg hs ht hfit, Option.some_bind]
  · intro ht
    simp only [printProgress, heta, progressBody_unknown_total env rg hs ht, Option.some_bind]

/-- C5 (amended), at the input of the specification: completed 50 of total 200
renders `(25%)`. -/
theorem size_percent_field_witness :
    ∃ eta, etaOf sampleExt someGroup = some eta
    ∧ (0 < someGroup.totalLength → 100 * someGroup.completedLength < 2 ^ sampleExt.lenBits →
        printProgress sampleExt someGroup = some ("[" ++ "#" ++ toString someGroup.gid ++ " "
          ++ ("SIZE:" ++ sampleExt.abbrevSize someGroup.completedLength ++ "B" ++ "/"
              ++ sampleExt.abbrevSize someGroup.totalLength ++ "B"
              ++ ("(" ++ toString (100 * someGroup.completedLength / someGroup.totalLength)
                  ++ "%)"))
          ++ cnField someGroup ++ spdField sampleExt someGroup ++ upField sampleExt someGroup
          ++ etaField sampleExt eta ++ "]"))
    ∧ (someGroup.totalLength = 0 →
        printProgress sampleExt someGroup = some ("[" ++ "#" ++ toString someGroup.gid ++ " "
          ++ ("SIZE:" ++ sampleExt.abbrevSize someGroup.completedLength ++ "B" ++ "/"
              ++ sampleExt.abbrevSize someGroup.totalLength ++ "B")
          ++ cnField someGroup ++ spdField sampleExt someGroup ++ upField sampleExt someGroup
          ++ etaField sampleExt eta ++ "]")) :=
  size_percent_field sampleExt someGroup (by decide)

/-! ### The ETA field (lines 60-64, 104-108) -/

/-- C6, refuted as stated: total 1000 and speed 100 are both positive, yet with
950 bytes completed the quotient `(1000-950)/100` is 0 and the block carries no
` ETA:` segment. -/
theorem eta_absent_when_quotient_is_zero :
    0 < (partGroup 950).totalLength ∧ 0 < (partGroup 950).stat.downloadSpeed
    ∧ etaOf sampleExt (partGroup 950) = some 0
    ∧ printProgress sampleExt (partGroup 950)
        = some "[#1 SIZE:950B/1000B(95%) CN:3 SPD:0.10KiB/s]"
    ∧ ¬ (" ETA:".data <:+: "[#1 SIZE:950B/1000B(95%) CN:3 SPD:0.10KiB/s]".data) :=
  ⟨by decide, by decide, by decide, by decide, by decide⟩

/-- C6, amended: for a task with total length > 0 and download speed > 0 whose
completed length does not exceed the total, whose total fits the length type and
whose quotient `q = (total - completed) / speed` (truncating division) fits
`unsigned int`, the value computed for the duration formatter is `q`, and the
block ends with ` ETA:` followed by `secfmt q` exactly when `q > 0`; when `q = 0`
the closing bracket follows the upload field directly. -/
theorem eta_segment (env : Ext) (rg : RequestGroup) (body : String)
    (ht : 0 < rg.totalLength) (hs : 0 < rg.stat.downloadSpeed)
    (hc : rg.completedLength ≤ rg.totalLength) (hlen : rg.totalLength < 2 ^ env.lenBits)
    (hq : (rg.totalLength - rg.completedLength) / rg.stat.downloadSpeed < 2 ^ env.uintBits)
    (hbody : progressBody env rg = some body) :
    etaOf env rg = some ((rg.totalLength - rg.completedLength) / rg.stat.downloadSpeed)
    ∧ printProgress env rg = some ("[" ++ "#" ++ toString rg.gid ++ " " ++ body ++ cnField rg
        ++ spdField env rg ++ upField env rg
        ++ (if 0 < (rg.totalLength - rg.completedLength) / rg.stat.downloadSpeed then
              " ETA:" ++ env.secfmt ((rg.totalLength - rg.completedLength) / rg.stat.downloadSpeed)
            else "")
        ++ "]") := by
  have heta : etaOf env rg
      = some ((rg.totalLength - rg.completedLength) / rg.stat.downloadSpeed) := by
    unfold etaOf
    rw [if_pos ⟨ht, hs⟩, subWrap_of_le _ _ _ hc hlen, cdiv_of_pos _ _ hs]
    simp only [Option.map_some', Option.some.injEq]
    exact Nat.mod_eq_of_lt hq
  refine ⟨heta, ?_⟩
  have hsp : " " ++ "ETA:" = " ETA:" := by decide
  simp only [printProgress, heta, hbody, Option.some_bind, etaField, gt_iff_lt, hsp]

/-- C6 (amended), at the input of the specification: total 1000, completed 400,
speed 100 give the formatter the value 6. -/
theorem eta_segment_witness :
    etaOf sampleExt (partGroup 400)
      = some (((partGroup 400).totalLength - (partGroup 400).completedLength)
          / (partGroup 400).stat.downloadSpeed)
    ∧ printProgress sampleExt (partGroup 400)
        = some ("[" ++ "#" ++ toString (partGroup 400).gid ++ " " ++ "SIZE:400B/1000B(40%)"
          ++ cnField (partGroup 400) ++ spdField sampleExt (partGroup 400)
          ++ upField sampleExt (partGroup 400)
          ++ (if 0 < ((partGroup 400).totalLength - (partGroup 400).completedLength)
                / (partGroup 400).stat.downloadSpeed then
                " ETA:" ++ sampleExt.secfmt
                  (((partGroup 400).totalLength - (partGroup 400).completedLength)
                    / (partGroup 400).stat.downloadSpeed)
              else "")
          ++ "]") :=
  eta_segment sampleExt (partGroup 400) "SIZE:400B/1000B(40%)" (by decide) (by decide)
    (by decide) (by decide) (by decide) (by decide)

/-- C7: for a task whose download speed is 0 or whose total length is 0, the
ETA computation takes the branch without the division and yields 0, the ETA
field is empty, and the block is the body, the connection, speed and upload
fields and the closing bracket, with nothing in between. -/
theorem no_eta_without_speed_or_total (env : Ext) (rg : RequestGroup)
    (h : rg.stat.downloadSpeed = 0 ∨ rg.totalLength = 0) :
    etaOf env rg = some 0 ∧ etaField env 0 = ""
    ∧ printProgress env rg = (progressBody env rg).map (fun body =>
        "[" ++ "#" ++ toString rg.gid ++ " " ++ body ++ cnField rg ++ spdField env rg
          ++ upField env rg ++ "]") := by
  have hcond : ¬ (rg.totalLength > 0 ∧ rg.stat.downloadSpeed > 0) := by omega
  have heta : etaOf env rg = some 0 := by
    unfold etaOf
    rw [if_neg hcond]
  have hfield : etaField env 0 = "" := by simp [etaField]
  refine ⟨heta, hfield, ?_⟩
  simp only [printProgress, heta, Option.some_bind, hfield, String.append_empty]
  cases progressBody env rg <;> rfl

/-- C7, at a concrete input: a stalled download (speed 0) of 1000 bytes. -/
theorem no_eta_without_speed_or_total_witness :
    etaOf sampleExt stalledGroup = some 0 ∧ etaField sampleExt 0 = ""
    ∧ printProgress sampleExt stalledGroup = (progressBody sampleExt stalledGroup).map
        (fun body => "[" ++ "#" ++ toString stalledGroup.gid ++ " " ++ body
          ++ cnField stalledGroup ++ spdField sampleExt stalledGroup
          ++ upField sampleExt stalledGroup ++ "]") :=
  no_eta_without_speed_or_total sampleExt stalledGroup (Or.inl (by decide))

/-! ### The seeding body (lines 68-76) -/

/-- The seeding body carries the exact number of tenths as long as ten times the
upload length fits the length type and the completed length is not 0. -/
theorem progressBody_seeding (env : Ext) (rg : RequestGroup)
    (hbt : env.ENABLE_BITTORRENT = true) (hfin : rg.downloadFinished = true)
    (hctx : rg.isBtContext = true) (hc : 0 < rg.completedLength)
    (hfit : 10 * rg.stat.allTimeUploadLength < 2 ^ env.lenBits) :
    progressBody env rg = some ("SEEDING" ++ "(" ++ "ratio:"
      ++ env.fixed 1 (10 * rg.stat.allTimeUploadLength / rg.completedLength) 10 ++ ")") := by
  have hfit2 : rg.stat.allTimeUploadLength * 10 < 2 ^ env.lenBits := by omega
  simp [progressBody, hbt, hfin, hctx, seedTenths, mulWrap_of_lt _ _ _ hfit2,
    cdiv_of_pos _ _ hc, Nat.mul_comm]

/-- C8, refuted as stated: with 64-bit lengths, a finished BitTorrent task with
1000 bytes completed and 1844674407370955162 bytes uploaded has
18446744073709551 tenths in exact arithmetic, yet `getAllTimeUploadLength()*10`
wraps to 4, the number of tenths handed to the stream is 0 and the body reads
`SEEDING(ratio:0.0)`. -/
theorem seeding_tenths_wrap_on_large_upload :
    (seeder 1844674407370955162 1000).stat.allTimeUploadLength < 2 ^ sampleExt.lenBits
    ∧ 0 < (seeder 1844674407370955162 1000).completedLength
    ∧ 10 * (seeder 1844674407370955162 1000).stat.allTimeUploadLength
        / (seeder 1844674407370955162 1000).completedLength = 18446744073709551
    ∧ seedTenths sampleExt (seeder 1844674407370955162 1000) = some 0
    ∧ printProgress sampleExt (seeder 1844674407370955162 1000)
        = some "[#7 SEEDING(ratio:0.0) CN:2 UP:2.00KiB/s(1844674407370955162B)]" :=
  ⟨by decide, by decide, by decide, by decide, by decide⟩

/-- C8, amended: in a build with BitTorrent support, for a finished BitTorrent
task with completed length > 0 and `10 * allTimeUpload` fitting the length type,
the block is produced and its body is `SEEDING(ratio:<r>)`, where `r` is what the
stream writes in fixed notation with one fractional digit for
`floor(10*allTimeUpload/completed)` divided by `10.0`; the connection field
follows the body directly, and no SIZE field is written. -/
theorem seeding_body (env : Ext) (rg : RequestGroup)
    (hbt : env.ENABLE_BITTORRENT = true) (hfin : rg.downloadFinished = true)
    (hctx : rg.isBtContext = true) (hc : 0 < rg.completedLength)
    (hfit : 10 * rg.stat.allTimeUploadLength < 2 ^ env.lenBits) :
    ∃ eta, etaOf env rg = some eta
    ∧ printProgress env rg = some ("[" ++ "#" ++ toString rg.gid ++ " "
        ++ ("SEEDING" ++ "(" ++ "ratio:"
            ++ env.fixed 1 (10 * rg.stat.allTimeUploadLength / rg.completedLength) 10 ++ ")")
        ++ cnField rg ++ spdField env rg ++ upField env rg ++ etaField env eta ++ "]") := by
  obtain ⟨eta, heta⟩ := etaOf_some env rg
  refine ⟨eta, heta, ?_⟩
  simp only [printProgress, heta, progressBody_seeding env rg hbt hfin hctx hc hfit,
    Option.some_bind]

/-- C8 (amended), at the input of the specification: completed 1000 and 2500
uploaded give 25 tenths, which the sample formatter renders `2.5`. -/
theorem seeding_body_witness :
    (∃ eta, etaOf sampleExt (seeder 2500 1000) = some eta
      ∧ printProgress sampleExt (seeder 2500 1000)
          = some ("[" ++ "#" ++ toString (seeder 2500 1000).gid ++ " "
            ++ ("SEEDING" ++ "(" ++ "ratio:"
                ++ sampleExt.fixed 1 (10 * (seeder 2500 1000).stat.allTimeUploadLength
                    / (seeder 2500 1000).completedLength) 10 ++ ")")
            ++ cnField (seeder 2500 1000) ++ spdField sampleExt (seeder 2500 1000)
            ++ upField sampleExt (seeder 2500 1000) ++ etaField sampleExt eta ++ "]"))
    ∧ printProgress sampleExt (seeder 2500 1000)
        = some "[#7 SEEDING(ratio:2.5) CN:2 UP:2.00KiB/s(2500B)]" :=
  ⟨seeding_body sampleExt (seeder 2500 1000) (by decide) (by decide) (by decide) (by decide)
    (by decide), by decide⟩

/-- C9, the code at the failing input: for a finished BitTorrent task whose
completed length is 0 the division of line 73 is executed with a zero divisor;
no guard precedes it, and the block is not produced. -/
theorem seeding_divides_by_zero_completed :
    (seeder 2500 0).downloadFinished = true ∧ (seeder 2500 0).isBtContext = true
    ∧ (seeder 2500 0).completedLength = 0
    ∧ seedTenths sampleExt (seeder 2500 0) = none
    ∧ printProgress sampleExt (seeder 2500 0) = none :=
  ⟨by decide, by decide, by decide, by decide, by decide⟩

/-! ### The allocation segment (lines 205-230) -/

/-- The allocation segment for a current entry: the placeholder for an unknown
total, the exact percentage when `100 * current` fits the length type. -/
theorem fileAllocSegment_current (env : Ext) (fam : FileAllocationMan) (entry : ProgressEntry)
    (hcur : fam.currentFileAllocationEntry = some entry)
    (hfit : entry.totalLength > 0 → 100 * entry.currentLength < 2 ^ env.lenBits) :
    fileAllocSegment env fam = some (" " ++ "[FileAlloc:" ++ "#" ++ toString entry.gid ++ " "
      ++ env.abbrevSize entry.currentLength ++ "B" ++ "/"
      ++ env.abbrevSize entry.totalLength ++ "B" ++ "("
      ++ (if entry.totalLength > 0 then toString (100 * entry.currentLength / entry.totalLength)
          else "--")
      ++ "%)" ++ "]"
      ++ (if fam.countFileAllocationEntryInQueue > 0 then
            "(" ++ toString fam.countFileAllocationEntryInQueue ++ "waiting...)"
          else "")) := by
  unfold fileAllocSegment
  rw [hcur]
  by_cases ht : entry.totalLength > 0
  · simp [ht, percent_exact env _ _ ht (hfit ht)]
  · simp [ht]

/-- Without a current entry the allocation segment is empty. -/
theorem fileAllocSegment_none (env : Ext) (fam : FileAllocationMan)
    (hcur : fam.currentFileAllocationEntry = none) : fileAllocSegment env fam = some "" := by
  unfold fileAllocSegment
  rw [hcur]

/-- C10, refuted as stated: with 64-bit lengths, a current allocation entry
whose current and total length are both 184467440737095517 is 100 percent done,
yet `100*getCurrentLength()` wraps to 84 and the segment shows `(0%)`. -/
theorem alloc_percent_wraps_on_large_length :
    (allocTick 184467440737095517 184467440737095517 0).fileAllocationMan.currentFileAllocationEntry
      = some { gid := 3, currentLength := 184467440737095517
               totalLength := 184467440737095517 }
    ∧ (184467440737095517 : Nat) < 2 ^ sampleExt.lenBits
    ∧ 100 * 184467440737095517 / 184467440737095517 = 100
    ∧ composeReadout sampleExt (allocTick 184467440737095517 184467440737095517 0)
        = some " [FileAlloc:#3 184467440737095517B/184467440737095517B(0%)]" :=
  ⟨by decide, by decide, by decide, by decide⟩

/-- C10, amended: whenever the readout is composed it is the first-group
segment, the total-speed segment, the allocation segment and the checksum
segment in this order, where (a) with no current allocation entry the allocation
segment is empty, and (b) with a current entry it is
` [FileAlloc:#<id> <abbrev(current)>B/<abbrev(total)>B(<p>%)]`, `p` being `--`
when the total is 0 and the decimal integer `floor(100*current/total)` when the
total is > 0 and `100 * current` fits the length type, directly followed by
`(<queueCount>waiting...)` exactly when the queue count is > 0. -/
theorem alloc_segment_in_readout (env : Ext) (t : Tick) (s : String)
    (hs : composeReadout env t = some s) :
    ∃ first check : String, firstGroupSegment env t.requestGroupMan = some first
    ∧ checksumSegment env t.checkIntegrityMan = some check
    ∧ (t.fileAllocationMan.currentFileAllocationEntry = none →
        s = first ++ totalSpeedSegment env t.requestGroupMan ++ "" ++ check)
    ∧ (∀ entry : ProgressEntry, t.fileAllocationMan.currentFileAllocationEntry = some entry →
        (entry.totalLength > 0 → 100 * entry.currentLength < 2 ^ env.lenBits) →
        s = first ++ totalSpeedSegment env t.requestGroupMan
          ++ (" " ++ "[FileAlloc:" ++ "#" ++ toString entry.gid ++ " "
              ++ env.abbrevSize entry.currentLength ++ "B" ++ "/"
              ++ env.abbrevSize entry.totalLength ++ "B" ++ "("
              ++ (if entry.totalLength > 0 then
                    toString (100 * entry.currentLength / entry.totalLength)
                  else "--")
              ++ "%)" ++ "]"
              ++ (if t.fileAllocationMan.countFileAllocationEntryInQueue > 0 then
                    "(" ++ toString t.fileAllocationMan.countFileAllocationEntryInQueue
                      ++ "waiting...)"
                  else ""))
          ++ check) := by
  simp only [composeReadout, Option.bind_eq_some, Option.some.injEq] at hs
  obtain ⟨first, hfirst, alloc, halloc, check, hcheck, hcomp⟩ := hs
  refine ⟨first, check, hfirst, hcheck, ?_, ?_⟩
  · intro hnone
    rw [fileAllocSegment_none env _ hnone, Option.some.injEq] at halloc
    rw [← hcomp, ← halloc]
  · intro entry hcur hfit
    rw [fileAllocSegment_current env _ entry hcur hfit, Option.some.injEq] at halloc
    rw [← hcomp, ← halloc]

/-- C10 (amended), at a concrete input: an entry at 5 of 10 bytes with two
entries waiting, on an empty registry. -/
theorem alloc_segment_in_readout_witness :
    composeReadout sampleExt (allocTick 5 10 2) = some " [FileAlloc:#3 5B/10B(50%)](2waiting...)"
    ∧ ∃ first check : String,
        firstGroupSegment sampleExt (allocTick 5 10 2).requestGroupMan = some first
      ∧ checksumSegment sampleExt (allocTick 5 10 2).checkIntegrityMan = some check
      ∧ " [FileAlloc:#3 5B/10B(50%)](2waiting...)"
          = first ++ totalSpeedSegment sampleExt (allocTick 5 10 2).requestGroupMan
            ++ (" " ++ "[FileAlloc:" ++ "#" ++ toString (3 : Int) ++ " "
                ++ sampleExt.abbrevSize 5 ++ "B" ++ "/" ++ sampleExt.abbrevSize 10 ++ "B" ++ "("
                ++ (if 10 > 0 then toString (100 * 5 / 10) else "--")
                ++ "%)" ++ "]"
                ++ (if (allocTick 5 10 2).fileAllocationMan.countFileAllocationEntryInQueue > 0
                    then "(" ++ toString
                      (allocTick 5 10 2).fileAllocationMan.countFileAllocationEntryInQueue
                      ++ "waiting...)"
                    else ""))
            ++ check :=
  ⟨by decide,
    (alloc_segment_in_readout sampleExt (allocTick 5 10 2)
        " [FileAlloc:#3 5B/10B(50%)](2waiting...)" (by decide)).imp fun _ h =>
      h.imp fun _ h' => ⟨h'.1, h'.2.1,
        h'.2.2.2 { gid := 3, currentLength := 5, totalLength := 10 } (by decide)
          (fun _ => by decide)⟩⟩

/-! ### When rendering is defined -/

/-- The task block is produced unless the task is a finished BitTorrent download
with completed length 0 in a build with BitTorrent support: the division of line
73 is the only one in `printProgress` that can meet a zero divisor. -/
theorem printProgress_isSome_iff (env : Ext) (rg : RequestGroup) :
    (printProgress env rg).isSome = true ↔
      ¬ (env.ENABLE_BITTORRENT = true ∧ rg.downloadFinished = true ∧ rg.isBtContext = true
          ∧ rg.completedLength = 0) := by
  obtain ⟨eta, heta⟩ := etaOf_some env rg
  simp only [printProgress, heta, Option.some_bind]
  by_cases hseed : (env.ENABLE_BITTORRENT && rg.downloadFinished && rg.isBtContext) = true
  · have h3 : env.ENABLE_BITTORRENT = true ∧ rg.downloadFinished = true
        ∧ rg.isBtContext = true := by
      simpa [Bool.and_eq_true, and_assoc] using hseed
    by_cases hc : rg.completedLength = 0
    · simp [progressBody, hseed, seedTenths, hc, cdiv_zero, h3]
    · have hpos : 0 < rg.completedLength := Nat.pos_of_ne_zero hc
      simp [progressBody, hseed, seedTenths, cdiv_of_pos _ _ hpos, hc]
  · have hfalse : (env.ENABLE_BITTORRENT && rg.downloadFinished && rg.isBtContext) = false := by
      simpa using hseed
    have hno : ¬ (env.ENABLE_BITTORRENT = true ∧ rg.downloadFinished = true
        ∧ rg.isBtContext = true ∧ rg.completedLength = 0) := by
      intro h
      simp [h.1, h.2.1, h.2.2.1] at hfalse
    by_cases ht : rg.totalLength > 0
    · simp [progressBody, hfalse, ht, percent, cdiv_of_pos _ _ ht, hno]
    · simp [progressBody, hfalse, ht, hno]

/-! ### The checksum segment (lines 231-254) -/

/-- The checksum segment is produced unless, in a build with message digest
support, the first entry has total length 0: the division of line 244 has no
guard. -/
theorem checksumSegment_isSome_iff (env : Ext) (cim : CheckIntegrityMan) :
    (checksumSegment env cim).isSome = true ↔
      ¬ (env.ENABLE_MESSAGE_DIGEST = true
          ∧ ∃ entry, cim.firstCheckIntegrityEntry = some entry ∧ entry.totalLength = 0) := by
  unfold checksumSegment
  cases hmd : env.ENABLE_MESSAGE_DIGEST with
  | false => simp
  | true =>
    cases hentry : cim.firstCheckIntegrityEntry with
    | none => simp
    | some entry =>
      by_cases ht : entry.totalLength = 0
      · simp [percent, ht, cdiv_zero]
      · have hpos : 0 < entry.totalLength := Nat.pos_of_ne_zero ht
        simp [percent, cdiv_of_pos _ _ hpos, ht]

/-- C11, the code at the failing input: in a build with message digest support,
for a first integrity entry with total length 0 the expression
`100*entry->getCurrentLength()/entry->getTotalLength()` of line 244 is executed
with a zero divisor; no placeholder is written and no readout is composed. -/
theorem checksum_divides_by_zero_total :
    sampleExt.ENABLE_MESSAGE_DIGEST = true
    ∧ (checkTick 5 0 1).checkIntegrityMan.firstCheckIntegrityEntry
        = some { gid := 4, currentLength := 5, totalLength := 0 }
    ∧ percent sampleExt 5 0 = none
    ∧ checksumSegment sampleExt (checkTick 5 0 1).checkIntegrityMan = none
    ∧ composeReadout sampleExt (checkTick 5 0 1) = none :=
  ⟨by decide, by decide, by decide, by decide, by decide⟩

/-! ### Blanks between the segments (lines 178-255) -/

theorem printProgress_begins (env : Ext) (rg : RequestGroup) (p : String)
    (h : printProgress env rg = some p) : ∃ r : String, p = "[" ++ ("#" ++ r) := by
  simp only [printProgress, Option.bind_eq_some, Option.some.injEq] at h
  obtain ⟨eta, -, body, -, hp⟩ := h
  rw [← hp]
  simp only [String.append_assoc]
  exact ⟨_, rfl⟩

theorem totalSpeedSegment_begins (env : Ext) (man : RequestGroupMan) :
    totalSpeedSegment env man = "" ∨
      ∃ r : String, totalSpeedSegment env man = " " ++ ("[TOTAL SPD:" ++ r) := by
  unfold totalSpeedSegment
  split
  · right
    simp only [String.append_assoc]
    exact ⟨_, rfl⟩
  · left; rfl

theorem fileAllocSegment_begins (env : Ext) (fam : FileAllocationMan) (alloc : String)
    (h : fileAllocSegment env fam = some alloc) :
    (fam.currentFileAllocationEntry = none ∧ alloc = "") ∨
      (fam.currentFileAllocationEntry ≠ none ∧
        ∃ r : String, alloc = " " ++ ("[FileAlloc:" ++ r)) := by
  unfold fileAllocSegment at h
  cases hcur : fam.currentFileAllocationEntry with
  | none =>
    rw [hcur] at h
    simp only [Option.some.injEq] at h
    exact Or.inl ⟨rfl, h.symm⟩
  | some entry =>
    rw [hcur] at h
    simp only [Option.map_eq_some'] at h
    obtain ⟨pct, -, hp⟩ := h
    refine Or.inr ⟨by simp, ?_⟩
    rw [← hp]
    simp only [String.append_assoc]
    exact ⟨_, rfl⟩

theorem checksumSegment_begins (env : Ext) (cim : CheckIntegrityMan) (check : String)
    (h : checksumSegment env cim = some check) :
    ((env.ENABLE_MESSAGE_DIGEST = false ∨ cim.firstCheckIntegrityEntry = none) ∧ check = "") ∨
      ((env.ENABLE_MESSAGE_DIGEST = true ∧ cim.firstCheckIntegrityEntry ≠ none) ∧
        ∃ r : String, check = " " ++ ("[Checksum:" ++ r)) := by
  unfold checksumSegment at h
  cases hmd : env.ENABLE_MESSAGE_DIGEST with
  | false =>
    rw [hmd] at h
    simp only [Bool.false_eq_true, if_false, Option.some.injEq] at h
    exact Or.inl ⟨Or.inl rfl, h.symm⟩
  | true =>
    rw [hmd] at h
    simp only [if_true] at h
    cases hentry : cim.firstCheckIntegrityEntry with
    | none =>
      rw [hentry] at h
      simp only [Option.some.injEq] at h
      exact Or.inl ⟨Or.inr rfl, h.symm⟩
    | some entry =>
      rw [hentry] at h
      simp only [Option.map_eq_some'] at h
      obtain ⟨p, -, hp⟩ := h
      refine Or.inr ⟨⟨rfl, by simp⟩, ?_⟩
      rw [← hp]
      simp only [String.append_assoc]
      exact ⟨_, rfl⟩

theorem firstGroupSegment_nil (env : Ext) (man : RequestGroupMan)
    (h : man.requestGroups = []) :
    firstGroupSegment env man = some "" ∧ totalSpeedSegment env man = "" := by
  simp [firstGroupSegment, totalSpeedSegment, RequestGroupMan.countRequestGroup, h]

theorem firstGroupSegment_cons (env : Ext) (man : RequestGroupMan) (rg : RequestGroup)
    (rest : List RequestGroup) (h : man.requestGroups = rg :: rest) :
    firstGroupSegment env man = (printProgress env rg).map fun p =>
      p ++ (if man.countRequestGroup > 1 then
              "(" ++ toString (man.countRequestGroup - 1) ++ "more...)"
            else "") := by
  simp [firstGroupSegment, RequestGroupMan.countRequestGroup, h]

/-- C12, refuted as stated: (a) with an empty registry and an allocation under
way the composed line is the allocation segment alone and begins with a blank;
(b) with two groups the `(1more...)` suffix follows the closing bracket of the
block with no blank in between. -/
theorem readout_may_begin_with_blank :
    (allocTick 5 10 2).requestGroupMan.requestGroups = []
    ∧ composeReadout sampleExt (allocTick 5 10 2)
        = some " [FileAlloc:#3 5B/10B(50%)](2waiting...)"
    ∧ " [FileAlloc:#3 5B/10B(50%)](2waiting...)".data.head? = some ' '
    ∧ composeReadout sampleExt (tickAt 1000000 0 none [someGroup, someGroup])
        = some ("[#1 SIZE:50B/200B(25%) CN:3 SPD:0.10KiB/s ETA:1s]" ++ "(1more...)"
            ++ " [TOTAL SPD:0.10KiB/s]") :=
  ⟨by decide, by decide, by decide, by decide⟩

/-- C12, amended: whenever the readout is composed it is the first-group
segment, the total-speed, allocation and checksum segments in this order with
nothing in between, where the block of the first group begins with `[#` and has
nothing before it, the `(<n>more...)` suffix follows the block directly, and each
of the total-speed, allocation and checksum segments, when written, begins with
one blank followed by its opening bracket. Hence the line begins with `[` when
the registry has a group, and begins with a blank when the registry is empty and
an allocation entry is current. -/
theorem segment_spacing (env : Ext) (t : Tick) (s : String)
    (hs : composeReadout env t = some s) :
    ∃ first alloc check : String,
      firstGroupSegment env t.requestGroupMan = some first
      ∧ fileAllocSegment env t.fileAllocationMan = some alloc
      ∧ checksumSegment env t.checkIntegrityMan = some check
      ∧ s = first ++ totalSpeedSegment env t.requestGroupMan ++ alloc ++ check
      ∧ (t.requestGroupMan.requestGroups = [] →
          first = "" ∧ totalSpeedSegment env t.requestGroupMan = "")
      ∧ (∀ rg rest, t.requestGroupMan.requestGroups = rg :: rest →
          ∃ r : String, printProgress env rg = some ("[" ++ ("#" ++ r))
            ∧ first = "[" ++ ("#" ++ r)
                ++ (if t.requestGroupMan.countRequestGroup > 1 then
                      "(" ++ toString (t.requestGroupMan.countRequestGroup - 1) ++ "more...)"
                    else ""))
      ∧ (totalSpeedSegment env t.requestGroupMan = "" ∨
          ∃ r : String, totalSpeedSegment env t.requestGroupMan = " " ++ ("[TOTAL SPD:" ++ r))
      ∧ (alloc = "" ∨ ∃ r : String, alloc = " " ++ ("[FileAlloc:" ++ r))
      ∧ (check = "" ∨ ∃ r : String, check = " " ++ ("[Checksum:" ++ r))
      ∧ (t.requestGroupMan.requestGroups ≠ [] → ∃ r : String, s = "[" ++ r)
      ∧ (t.requestGroupMan.requestGroups = [] →
          t.fileAllocationMan.currentFileAllocationEntry ≠ none →
          ∃ r : String, s = " " ++ r) := by
  simp only [composeReadout, Option.bind_eq_some, Option.some.injEq] at hs
  obtain ⟨first, hfirst, alloc, halloc, check, hcheck, hcomp⟩ := hs
  have hcons : ∀ rg rest, t.requestGroupMan.requestGroups = rg :: rest →
      ∃ r : String, printProgress env rg = some ("[" ++ ("#" ++ r))
        ∧ first = "[" ++ ("#" ++ r)
            ++ (if t.requestGroupMan.countRequestGroup > 1 then
                  "(" ++ toString (t.requestGroupMan.countRequestGroup - 1) ++ "more...)"
                else "") := by
    intro rg rest hgroups
    rw [firstGroupSegment_cons env _ rg rest hgroups] at hfirst
    simp only [Option.map_eq_some'] at hfirst
    obtain ⟨p, hp, hfirst'⟩ := hfirst
    obtain ⟨r, hr⟩ := printProgress_begins env rg p hp
    subst hr
    exact ⟨r, hp, hfirst'.symm⟩
  have hnil := firstGroupSegment_nil env t.requestGroupMan
  refine ⟨first, alloc, check, hfirst, halloc, hcheck, hcomp.symm, ?_, hcons,
    totalSpeedSegment_begins env _, ?_, ?_, ?_, ?_⟩
  · intro h
    have h1 := (hnil h).1
    rw [hfirst, Option.some.injEq] at h1
    exact ⟨h1, (hnil h).2⟩
  · rcases fileAllocSegment_begins env _ alloc halloc with h | h
    · exact Or.inl h.2
    · exact Or.inr h.2
  · rcases checksumSegment_begins env _ check hcheck with h | h
    · exact Or.inl h.2
    · exact Or.inr h.2
  · intro hne
    cases hg : t.requestGroupMan.requestGroups with
    | nil => exact absurd hg hne
    | cons rg rest =>
      obtain ⟨r, -, hf⟩ := hcons rg rest hg
      rw [← hcomp, hf]
      simp only [String.append_assoc]
      exact ⟨_, rfl⟩
  · intro hg hcur
    have h1 := (hnil hg).1
    rw [hfirst, Option.some.injEq] at h1
    rcases fileAllocSegment_begins env _ alloc halloc with h | h
    · exact absurd h.1 hcur
    · obtain ⟨r, hr⟩ := h.2
      rw [← hcomp, h1, (hnil hg).2, hr]
      simp only [String.append_assoc, String.empty_append]
      exact ⟨_, rfl⟩

/-- C12 (amended), at a concrete input: with an empty registry and an allocation
entry at 5 of 10 bytes the composed line begins with a blank. -/
theorem segment_spacing_witness :
    composeReadout sampleExt (allocTick 5 10 2) = some " [FileAlloc:#3 5B/10B(50%)](2waiting...)"
    ∧ ∃ r : String, " [FileAlloc:#3 5B/10B(50%)](2waiting...)" = " " ++ r := by
  refine ⟨by decide, ?_⟩
  obtain ⟨_, _, _, _, _, _, _, _, _, _, _, _, _, h⟩ :=
    segment_spacing sampleExt (allocTick 5 10 2) " [FileAlloc:#3 5B/10B(50%)](2waiting...)"
      (by decide)
  exact h (by decide) (by decide)

/-! ### A registry without groups (lines 178-203) -/

/-- With an empty registry the readout is the allocation segment followed by the
checksum segment; nothing of lines 179-203 is written. -/
theorem composeReadout_empty_registry (env : Ext) (t : Tick)
    (h : t.requestGroupMan.requestGroups = []) :
    composeReadout env t =
      (fileAllocSegment env t.fileAllocationMan).bind fun alloc =>
      (checksumSegment env t.checkIntegrityMan).bind fun check =>
      some (alloc ++ check) := by
  have hnil := firstGroupSegment_nil env t.requestGroupMan h
  simp only [composeReadout, hnil.1, hnil.2, Option.some_bind, String.append_empty,
    String.empty_append]

/-- With an empty registry, no current allocation entry and no queued integrity
check, the readout is the empty string. -/
theorem composeReadout_idle (env : Ext) (t : Tick)
    (h : t.requestGroupMan.requestGroups = [])
    (ha : t.fileAllocationMan.currentFileAllocationEntry = none)
    (hc : t.checkIntegrityMan.firstCheckIntegrityEntry = none) :
    composeReadout env t = some "" := by
  rw [composeReadout_empty_registry env t h, fileAllocSegment_none env _ ha]
  unfold checksumSegment
  rw [hc]
  cases env.ENABLE_MESSAGE_DIGEST <;> rfl

/-- A call that passes the gate on an empty registry writes no summary block,
adds one to the counter and writes the readout under the usual discipline,
provided the readout is composed. -/
theorem empty_registry_tick (env : Ext) (self : ConsoleStatCalc) (t : Tick) (s : String)
    (hpass : self._cp + 1000000 ≤ t.now) (h : t.requestGroupMan.requestGroups = [])
    (hs : composeReadout env t = some s) :
    calculateStat env self t = some
      ({ _cp := t.now, _summaryInterval := self._summaryInterval
         _summaryIntervalCount := self._summaryIntervalCount + 1 },
       { erase := if decide (t.isatty = 1) then some (eraseSequence (detectCols t)) else none
         summary := none
         status := some (statusText (decide (t.isatty = 1)) (detectCols t) s) }) := by
  have hdue : summaryDue self._summaryInterval (self._summaryIntervalCount + 1)
      t.requestGroupMan = false := by
    simp [summaryDue, RequestGroupMan.countRequestGroup, h]
  rw [calculateStat_passed env self t hpass, hdue, hs]
  rfl

/-- C13, the code at the failing input: in a build with message digest support,
a call that passes the gate on an empty registry while the first integrity entry
has total length 0 executes the division of line 244 with a zero divisor and
does not complete. -/
theorem empty_registry_tick_divides_by_zero :
    (checkTick 5 0 1).requestGroupMan.countRequestGroup = 0
    ∧ (ConsoleStatCalc.new 0 0)._cp + 1000000 ≤ (checkTick 5 0 1).now
    ∧ (checkTick 5 0 1).checkIntegrityMan.firstCheckIntegrityEntry
        = some { gid := 4, currentLength := 5, totalLength := 0 }
    ∧ calculateStat sampleExt (ConsoleStatCalc.new 0 0) (checkTick 5 0 1) = none :=
  ⟨by decide, by decide, by decide, by decide⟩

/-! ### The width (lines 169-177) -/

/-- C14, refuted as stated: on a terminal whose size query fails, a call with
three groups (a readout of 83 characters) writes the erase sequence for 80
columns and the first 80 characters of the readout without a line feed, whereas
off a terminal the same snapshot gives no erase sequence and the whole readout
followed by a line feed. -/
theorem failed_query_keeps_terminal_mode :
    calculateStat sampleExt (ConsoleStatCalc.new 0 0)
        (tickAt 1000000 1 none [someGroup, someGroup, someGroup])
      = some ({ _cp := 1000000, _summaryInterval := 0, _summaryIntervalCount := 1 },
              { erase := some (eraseSequence 80), summary := none
                status := some ("[#1 SIZE:50B/200B(25%) CN:3 SPD:0.10KiB/s ETA:1s](2more...)"
                  ++ " [TOTAL SPD:0.10KiB/s") })
    ∧ calculateStat sampleExt (ConsoleStatCalc.new 0 0)
        (tickAt 1000000 0 none [someGroup, someGroup, someGroup])
      = some ({ _cp := 1000000, _summaryInterval := 0, _summaryIntervalCount := 1 },
              { erase := none, summary := none
                status := some ("[#1 SIZE:50B/200B(25%) CN:3 SPD:0.10KiB/s ETA:1s](2more...)"
                  ++ " [TOTAL SPD:0.10KiB/s]" ++ "\n") }) :=
  ⟨by decide, by decide⟩

/-- C14, amended: if standard output is a terminal but the size query fails, the
call stays in terminal mode with a width of 80: it writes the erase sequence for
80 columns and then the first `min |s| 80` characters of the composed readout
`s`, with no line feed after them. -/
theorem failed_query_falls_back_to_80 (env : Ext) (self st1 : ConsoleStatCalc) (t : Tick)
    (w : Written) (hpass : self._cp + 1000000 ≤ t.now) (htty : t.isatty = 1)
    (hfail : t.ioctl = none) (hr : calculateStat env self t = some (st1, w)) :
    detectCols t = 80
    ∧ w.erase = some (eraseSequence 80)
    ∧ ∃ s : String, composeReadout env t = some s
        ∧ w.status = some (String.mk (s.data.take (min s.length 80)))
        ∧ (String.mk (s.data.take (min s.length 80))).length ≤ 80 := by
  have hcols : detectCols t = 80 := by simp [detectCols, htty, hfail]
  rw [calculateStat_passed env self t hpass] at hr
  simp only [Option.bind_eq_some, Option.some.injEq, Prod.mk.injEq] at hr
  obtain ⟨summary, -, readout, hread, -, hw⟩ := hr
  subst hw
  refine ⟨hcols, by simp [htty, hcols], readout, hread, ?_, ?_⟩
  · simp only [htty, decide_True, hcols]
    rw [statusText_terminal]
  · rw [length_take_data]
    exact le_trans (Nat.min_le_left _ _) (Nat.min_le_right _ _)

/-- C14 (amended), at a concrete input: three groups on a terminal whose size
query fails. -/
theorem failed_query_falls_back_to_80_witness :
    detectCols (tickAt 1000000 1 none [someGroup, someGroup, someGroup]) = 80
    ∧ ({ erase := some (eraseSequence 80), summary := none
         status := some ("[#1 SIZE:50B/200B(25%) CN:3 SPD:0.10KiB/s ETA:1s](2more...)"
           ++ " [TOTAL SPD:0.10KiB/s") } : Written).erase = some (eraseSequence 80)
    ∧ ∃ s : String,
        composeReadout sampleExt (tickAt 1000000 1 none [someGroup, someGroup, someGroup])
          = some s
        ∧ ({ erase := some (eraseSequence 80), summary := none
             status := some ("[#1 SIZE:50B/200B(25%) CN:3 SPD:0.10KiB/s ETA:1s](2more...)"
               ++ " [TOTAL SPD:0.10KiB/s") } : Written).status
            = some (String.mk (s.data.take (min s.length 80)))
        ∧ (String.mk (s.data.take (min s.length 80))).length ≤ 80 :=
  failed_query_falls_back_to_80 sampleExt (ConsoleStatCalc.new 0 0)
    { _cp := 1000000, _summaryInterval := 0, _summaryIntervalCount := 1 }
    (tickAt 1000000 1 none [someGroup, someGroup, someGroup])
    { erase := some (eraseSequence 80), summary := none
      status := some ("[#1 SIZE:50B/200B(25%) CN:3 SPD:0.10KiB/s ETA:1s](2more...)"
        ++ " [TOTAL SPD:0.10KiB/s") }
    (by decide) (by decide) (by decide) (by decide)

/-- C15: in a call that passes the gate the width is the column count answered
by the size query when standard output is a terminal and the query succeeds,
and 80 otherwise; that width is the one used for the erase sequence, the summary
separators and the cut of the status text; and nothing of an earlier call enters:
any object with the same summary interval and counter that passes the gate
returns the same result for the same call. -/
theorem width_of_tick (env : Ext) (self st1 : ConsoleStatCalc) (t : Tick) (w : Written)
    (hpass : self._cp + 1000000 ≤ t.now) (hr : calculateStat env self t = some (st1, w)) :
    (∀ c : Nat, t.isatty = 1 → t.ioctl = some c → detectCols t = c)
    ∧ (t.ioctl = none → detectCols t = 80)
    ∧ (t.isatty ≠ 1 → detectCols t = 80)
    ∧ w.erase = (if t.isatty = 1 then some (eraseSequence (detectCols t)) else none)
    ∧ (∃ s : String, composeReadout env t = some s
        ∧ w.status = some (statusText (decide (t.isatty = 1)) (detectCols t) s))
    ∧ (∀ sm : String, w.summary = some sm →
        ∃ text : String,
          printProgressSummary env t.requestGroupMan.requestGroups (detectCols t) t.asctime
            = some text ∧ sm = text ++ "\n")
    ∧ (∀ other : ConsoleStatCalc, other._cp + 1000000 ≤ t.now →
        other._summaryInterval = self._summaryInterval →
        other._summaryIntervalCount = self._summaryIntervalCount →
        calculateStat env other t = some (st1, w)) := by
  refine ⟨?_, ?_, ?_, ?_, ?_, ?_, ?_⟩
  · intro c htty hq
    simp [detectCols, htty, hq]
  · intro hq
    simp only [detectCols, hq]
    split <;> rfl
  · intro hn
    simp [detectCols, hn]
  · rw [calculateStat_passed env self t hpass] at hr
    simp only [Option.bind_eq_some, Option.some.injEq, Prod.mk.injEq] at hr
    obtain ⟨summary, -, readout, -, -, hw⟩ := hr
    subst hw
    by_cases htty : t.isatty = 1 <;> simp [htty]
  · rw [calculateStat_passed env self t hpass] at hr
    simp only [Option.bind_eq_some, Option.some.injEq, Prod.mk.injEq] at hr
    obtain ⟨summary, -, readout, hread, -, hw⟩ := hr
    subst hw
    exact ⟨readout, hread, rfl⟩
  · intro sm hsm
    rw [calculateStat_passed env self t hpass] at hr
    simp only [Option.bind_eq_some, Option.some.injEq, Prod.mk.injEq] at hr
    obtain ⟨summary, hsum, readout, -, -, hw⟩ := hr
    subst hw
    simp only at hsm
    subst hsm
    split at hsum
    · simp only [Option.map_eq_some', Option.some.injEq] at hsum
      obtain ⟨text, htext, heq⟩ := hsum
      exact ⟨text, htext, heq.symm⟩
    · simp at hsum
  · intro other hother hint hcnt
    rw [calculateStat_passed env other t hother, hint, hcnt,
      ← calculateStat_passed env self t hpass]
    exact hr

/-- C15, at a concrete input: a terminal that answers 20 columns. -/
theorem width_of_tick_witness :
    detectCols (tickAt 1000000 1 (some 20) [someGroup]) = 20
    ∧ ({ erase := some "\r                    \r", summary := none
         status := some "[#1 SIZE:50B/200B(25" } : Written).erase
        = (if (tickAt 1000000 1 (some 20) [someGroup]).isatty = 1 then
            some (eraseSequence (detectCols (tickAt 1000000 1 (some 20) [someGroup])))
           else none) :=
  ⟨(width_of_tick sampleExt (ConsoleStatCalc.new 0 0)
      { _cp := 1000000, _summaryInterval := 0, _summaryIntervalCount := 1 }
      (tickAt 1000000 1 (some 20) [someGroup])
      { erase := some "\r                    \r", summary := none
        status := some "[#1 SIZE:50B/200B(25" }
      (by decide) (by decide)).1 20 (by decide) (by decide),
   (width_of_tick sampleExt (ConsoleStatCalc.new 0 0)
      { _cp := 1000000, _summaryInterval := 0, _summaryIntervalCount := 1 }
      (tickAt 1000000 1 (some 20) [someGroup])
      { erase := some "\r                    \r", summary := none
        status := some "[#1 SIZE:50B/200B(25" }
      (by decide) (by decide)).2.2.2.1⟩

/-! ### The summary block (lines 112-151, 179-184) -/

/-- For a width of at least 1 the separator written through `std::setw` is the
character repeated `w` times. -/
theorem setwFill_same (c : Char) (w : Nat) (hw : 1 ≤ w) :
    setwFill c w c = String.mk (List.replicate w c) := by
  unfold setwFill
  obtain ⟨n, rfl⟩ : ∃ n, w = n + 1 := ⟨w - 1, by omega⟩
  rw [Nat.add_sub_cancel, List.replicate_succ']

/-- The entries of the summary block are, in registry order, the block of each
group on a line, the `FILE:` line and the separator line. -/
theorem printSummaryEntries_spec (env : Ext) (cols : Nat) :
    ∀ (groups : List RequestGroup) (es : String),
      printSummaryEntries env cols groups = some es →
      ∃ blocks : List String,
        List.Forall₂ (fun rg p => printProgress env rg = some p) groups blocks
        ∧ es = (List.zipWith
            (fun rg p => p ++ "\n" ++ "FILE: " ++ rg.filePath ++ "\n"
              ++ setwFill '-' cols '-' ++ "\n") groups blocks).foldr
            (fun e acc => e ++ acc) "" := by
  intro groups
  induction groups with
  | nil =>
    intro es h
    simp only [printSummaryEntries, Option.some.injEq] at h
    exact ⟨[], List.Forall₂.nil, by simp [← h]⟩
  | cons rg rest ih =>
    intro es h
    simp only [printSummaryEntries, printSummaryEntry, Option.bind_eq_some,
      Option.map_eq_some'] at h
    obtain ⟨e, ⟨p, hp, he⟩, es', hes', hcat⟩ := h
    obtain ⟨blocks, hall, hjoin⟩ := ih es' hes'
    refine ⟨p :: blocks, List.Forall₂.cons hp hall, ?_⟩
    rw [← hcat, ← he, hjoin]
    simp only [List.zipWith_cons_cons, List.foldr_cons]

/-- C16, refuted as stated: on a terminal that answers 0 columns, with summary
interval 1 and one group, the header line begins and ends with a blank, and the
two separator lines hold one character each, not none. -/
theorem summary_header_has_blanks :
    detectCols (tickAt 1000000 1 (some 0) [someGroup]) = 0
    ∧ calculateStat sampleExt (ConsoleStatCalc.new 1 0) (tickAt 1000000 1 (some 0) [someGroup])
      = some ({ _cp := 1000000, _summaryInterval := 1, _summaryIntervalCount := 0 },
              { erase := some "\r \r"
                summary := some
                  (" *** Download Progress Summary as of Sun Nov  1 12:00:00 2026 *** \n"
                    ++ "=\n" ++ "[#1 SIZE:50B/200B(25%) CN:3 SPD:0.10KiB/s ETA:1s]\n"
                    ++ "FILE: a.iso\n" ++ "-\n" ++ "\n")
                status := some "" }) :=
  ⟨by decide, by decide⟩

/-- C16, amended: for a width `cols` of at least 1, the summary block a call
writes is the header line ` *** Download Progress Summary as of <timestamp> *** `
(one blank before the first and after the last asterisks; ` as of <timestamp>`
only when the time calls succeed, the timestamp being the `asctime_r` buffer up
to its line feed), a line of `cols` characters `=`, then for every group in
registry order the text of `printProgress` for it on a line, the line
`FILE: <file path>` and a line of `cols` characters `-`, and finally one empty
line; every line ends with a line feed, and the text depends on the terminal
only through `cols`. -/
theorem summary_block (env : Ext) (self st1 : ConsoleStatCalc) (t : Tick) (w : Written)
    (sm : String) (hpass : self._cp + 1000000 ≤ t.now)
    (hr : calculateStat env self t = some (st1, w)) (hsm : w.summary = some sm)
    (hcols : 1 ≤ detectCols t) :
    ∃ blocks : List String,
      List.Forall₂ (fun rg p => printProgress env rg = some p)
        t.requestGroupMan.requestGroups blocks
      ∧ sm = " *** Download Progress Summary"
          ++ (match t.asctime with
              | some buf => " as of " ++ cutAtLineFeed buf
              | none => "")
          ++ " *** " ++ "\n"
          ++ String.mk (List.replicate (detectCols t) '=') ++ "\n"
          ++ (List.zipWith
              (fun rg p => p ++ "\n" ++ "FILE: " ++ rg.filePath ++ "\n"
                ++ String.mk (List.replicate (detectCols t) '-') ++ "\n")
              t.requestGroupMan.requestGroups blocks).foldr (fun e acc => e ++ acc) ""
          ++ "\n" := by
  rw [calculateStat_passed env self t hpass] at hr
  simp only [Option.bind_eq_some, Option.some.injEq, Prod.mk.injEq] at hr
  obtain ⟨summary, hsum, readout, -, -, hw⟩ := hr
  subst hw
  simp only at hsm
  subst hsm
  split at hsum
  · simp only [Option.map_eq_some', Option.some.injEq] at hsum
    obtain ⟨text, htext, heq⟩ := hsum
    simp only [printProgressSummary, Option.map_eq_some'] at htext
    obtain ⟨es, hes, htext'⟩ := htext
    obtain ⟨blocks, hall, hjoin⟩ := printSummaryEntries_spec env _ _ es hes
    refine ⟨blocks, hall, ?_⟩
    rw [← heq, ← htext', hjoin, setwFill_same '=' _ hcols, setwFill_same '-' _ hcols]
  · simp at hsum

/-- C16 (amended), at a concrete input: the fourth call of `fourTicks`, on a
terminal four columns wide. -/
theorem summary_block_witness :
    ∃ blocks : List String,
      List.Forall₂ (fun rg p => printProgress sampleExt rg = some p) [someGroup] blocks
      ∧ " *** Download Progress Summary as of Sun Nov  1 12:00:00 2026 *** \n"
          ++ "====\n" ++ "[#1 SIZE:50B/200B(25%) CN:3 SPD:0.10KiB/s ETA:1s]\n"
          ++ "FILE: a.iso\n" ++ "----\n" ++ "\n"
        = " *** Download Progress Summary"
          ++ (match (tickAt 4000000 1 (some 4) [someGroup]).asctime with
              | some buf => " as of " ++ cutAtLineFeed buf
              | none => "")
          ++ " *** " ++ "\n"
          ++ String.mk (List.replicate (detectCols (tickAt 4000000 1 (some 4) [someGroup])) '=')
          ++ "\n"
          ++ (List.zipWith
              (fun rg p => p ++ "\n" ++ "FILE: " ++ rg.filePath ++ "\n"
                ++ String.mk
                    (List.replicate (detectCols (tickAt 4000000 1 (some 4) [someGroup])) '-')
                ++ "\n")
              [someGroup] blocks).foldr (fun e acc => e ++ acc) ""
          ++ "\n" :=
  summary_block sampleExt
    { _cp := 3000000, _summaryInterval := 2, _summaryIntervalCount := 1 }
    { _cp := 4000000, _summaryInterval := 2, _summaryIntervalCount := 0 }
    (tickAt 4000000 1 (some 4) [someGroup])
    { erase := some "\r    \r"
      summary := some (" *** Download Progress Summary as of Sun Nov  1 12:00:00 2026 *** \n"
        ++ "====\n" ++ "[#1 SIZE:50B/200B(25%) CN:3 SPD:0.10KiB/s ETA:1s]\n" ++ "FILE: a.iso\n"
        ++ "----\n" ++ "\n")
      status := some "[#1 " }
    _ (by decide) (by decide) rfl (by decide)

/-! ### The order of the segments (lines 178-255) -/

theorem blank_append_ne_empty (r : String) : " " ++ r ≠ "" := by
  intro h
  have hlen := congrArg String.length h
  have hb : " ".length = 1 := rfl
  have he : "".length = 0 := rfl
  rw [String.length_append, hb, he] at hlen
  omega

/-- C17, refuted as stated: in a build without message digest support an
integrity check of group 4 is queued (5 of 10 bytes checked), yet the composed
readout holds no checksum segment: it is empty, whereas the build with message
digest support writes the segment for the same snapshot. -/
theorem checksum_absent_without_message_digest :
    noDigestExt.ENABLE_MESSAGE_DIGEST = false
    ∧ (checkTick 5 10 1).checkIntegrityMan.firstCheckIntegrityEntry
        = some { gid := 4, currentLength := 5, totalLength := 10 }
    ∧ checksumSegment noDigestExt (checkTick 5 10 1).checkIntegrityMan = some ""
    ∧ composeReadout noDigestExt (checkTick 5 10 1) = some ""
    ∧ composeReadout sampleExt (checkTick 5 10 1) = some " [Checksum:#4 5B/10B(50%)]" :=
  ⟨by decide, by decide, by decide, by decide, by decide⟩

/-- C17, amended: whenever the readout is composed, it is the concatenation, in
this order, of the block of the first group (written exactly when the registry
has a group), the `(<count-1>more...)` suffix (exactly when it has more than
one), the total-speed segment (exactly when it has more than one and the
aggregate is not finished), the allocation segment (non-empty exactly when an
entry is current) and the checksum segment (non-empty exactly when the build has
message digest support and an entry is queued); the groups after the first enter
only through their number. -/
theorem readout_order (env : Ext) (t : Tick) (s : String)
    (hs : composeReadout env t = some s) :
    ∃ block more alloc check : String,
      s = block ++ more ++ totalSpeedSegment env t.requestGroupMan ++ alloc ++ check
      ∧ (t.requestGroupMan.countRequestGroup = 0 → block = "")
      ∧ (∀ rg rest, t.requestGroupMan.requestGroups = rg :: rest →
          printProgress env rg = some block ∧ block ≠ "")
      ∧ more = (if t.requestGroupMan.countRequestGroup > 1 then
                  "(" ++ toString (t.requestGroupMan.countRequestGroup - 1) ++ "more...)"
                else "")
      ∧ totalSpeedSegment env t.requestGroupMan
          = (if t.requestGroupMan.countRequestGroup > 1
                ∧ t.requestGroupMan.downloadFinished = false then
              " " ++ "[TOTAL SPD:" ++ env.fixed 2 t.requestGroupMan.stat.downloadSpeed 1024
                ++ "KiB/s" ++ "]"
             else "")
      ∧ fileAllocSegment env t.fileAllocationMan = some alloc
      ∧ (alloc = "" ↔ t.fileAllocationMan.currentFileAllocationEntry = none)
      ∧ checksumSegment env t.checkIntegrityMan = some check
      ∧ (check = "" ↔ (env.ENABLE_MESSAGE_DIGEST = false
            ∨ t.checkIntegrityMan.firstCheckIntegrityEntry = none))
      ∧ (∀ rg rest rest', t.requestGroupMan.requestGroups = rg :: rest →
          rest'.length = rest.length →
          composeReadout env
              { t with requestGroupMan :=
                  { t.requestGroupMan with requestGroups := rg :: rest' } }
            = some s) := by
  have hs0 := hs
  simp only [composeReadout, Option.bind_eq_some, Option.some.injEq] at hs
  obtain ⟨first, hfirst, alloc, halloc, check, hcheck, hcomp⟩ := hs
  have htotal : totalSpeedSegment env t.requestGroupMan
      = (if t.requestGroupMan.countRequestGroup > 1
            ∧ t.requestGroupMan.downloadFinished = false then
          " " ++ "[TOTAL SPD:" ++ env.fixed 2 t.requestGroupMan.stat.downloadSpeed 1024
            ++ "KiB/s" ++ "]"
         else "") := by
    unfold totalSpeedSegment
    cases t.requestGroupMan.downloadFinished <;> simp
  have halloc_iff : alloc = "" ↔ t.fileAllocationMan.currentFileAllocationEntry = none := by
    rcases fileAllocSegment_begins env _ alloc halloc with h | h
    · exact ⟨fun _ => h.1, fun _ => h.2⟩
    · obtain ⟨r, hr⟩ := h.2
      exact ⟨fun he => absurd (hr ▸ he) (blank_append_ne_empty _), fun hn => absurd hn h.1⟩
  have hcheck_iff : check = "" ↔ (env.ENABLE_MESSAGE_DIGEST = false
      ∨ t.checkIntegrityMan.firstCheckIntegrityEntry = none) := by
    rcases checksumSegment_begins env _ check hcheck with h | h
    · exact ⟨fun _ => h.1, fun _ => h.2⟩
    · obtain ⟨r, hr⟩ := h.2
      refine ⟨fun he => absurd (hr ▸ he) (blank_append_ne_empty _), fun hn => ?_⟩
      rcases hn with hoff | hnone
      · rw [h.1.1] at hoff
        cases hoff
      · exact absurd hnone h.1.2
  cases hg : t.requestGroupMan.requestGroups with
  | nil =>
    have hnil := firstGroupSegment_nil env t.requestGroupMan hg
    rw [hnil.1, Option.some.injEq] at hfirst
    have hcount : t.requestGroupMan.countRequestGroup = 0 := by
      simp [RequestGroupMan.countRequestGroup, hg]
    refine ⟨"", "", alloc, check, ?_, fun _ => rfl, ?_, ?_, htotal, halloc, halloc_iff,
      hcheck, hcheck_iff, ?_⟩
    · rw [← hcomp, ← hfirst]
      simp only [String.append_empty]
    · intro rg rest h
      cases h
    · simp [hcount]
    · intro rg rest rest' h
      cases h
  | cons rg rest =>
    rw [firstGroupSegment_cons env _ rg rest hg] at hfirst
    simp only [Option.map_eq_some'] at hfirst
    obtain ⟨p, hp, hfirst'⟩ := hfirst
    have hpne : p ≠ "" := by
      obtain ⟨r, hr⟩ := printProgress_begins env rg p hp
      intro he
      have hlen := congrArg String.length (hr ▸ he)
      have hb : "[".length = 1 := rfl
      have he0 : "".length = 0 := rfl
      rw [String.length_append, hb, he0] at hlen
      omega
    refine ⟨p, _, alloc, check, ?_, ?_, ?_, rfl, htotal, halloc, halloc_iff,
      hcheck, hcheck_iff, ?_⟩
    · rw [← hcomp, ← hfirst']
    · intro hcount
      simp [RequestGroupMan.countRequestGroup, hg] at hcount
    · intro rg' rest' h
      cases h
      exact ⟨hp, hpne⟩
    · intro rg' rest0 rest' h hlen
      cases h
      rw [← hs0]
      simp only [composeReadout, firstGroupSegment, totalSpeedSegment,
        RequestGroupMan.countRequestGroup, hg, List.length_cons, hlen]

/-- C17 (amended), at a concrete input: two groups off a terminal, the second of
which is `hugeGroup`; only the first contributes a block. -/
theorem readout_order_witness :
    ∃ block more alloc check : String,
      "[#1 SIZE:50B/200B(25%) CN:3 SPD:0.10KiB/s ETA:1s](1more...) [TOTAL SPD:0.10KiB/s]"
        = block ++ more
            ++ totalSpeedSegment sampleExt
                (tickAt 1000000 0 none [someGroup, hugeGroup]).requestGroupMan
            ++ alloc ++ check
      ∧ printProgress sampleExt someGroup = some block
      ∧ more = "(" ++ toString (2 - 1) ++ "more...)"
      ∧ alloc = "" ∧ check = "" := by
  obtain ⟨block, more, alloc, check, hs, -, hblock, hmore, -, -, halloc, -, hcheck, -⟩ :=
    readout_order sampleExt (tickAt 1000000 0 none [someGroup, hugeGroup])
      "[#1 SIZE:50B/200B(25%) CN:3 SPD:0.10KiB/s ETA:1s](1more...) [TOTAL SPD:0.10KiB/s]"
      (by decide)
  exact ⟨block, more, alloc, check, hs, (hblock someGroup [hugeGroup] rfl).1, hmore,
    halloc.2 rfl, hcheck.2 (Or.inr rfl)⟩

/-! ### The erase sequence (line 176) -/

/-- C18, refuted as stated: on a terminal that answers 0 columns the erase
sequence is carriage return, one blank, carriage return, not two carriage
returns with nothing in between. -/
theorem erase_writes_a_blank_at_width_zero :
    detectCols (tickAt 1000000 1 (some 0) []) = 0
    ∧ calculateStat sampleExt (ConsoleStatCalc.new 0 0) (tickAt 1000000 1 (some 0) [])
      = some ({ _cp := 1000000, _summaryInterval := 0, _summaryIntervalCount := 1 },
              { erase := some "\r \r", summary := none, status := some "" })
    ∧ "\r \r" ≠ "\r" ++ String.mk (List.replicate 0 ' ') ++ "\r" :=
  ⟨by decide, by decide, by decide⟩

/-- C18, amended: a call that passes the gate writes the erase sequence, the
summary block if one is due, and the status text, in this order. On a terminal
with a width `cols` of at least 1 the erase sequence is one carriage return,
`cols` blanks and one carriage return; off a terminal no erase sequence is
written. -/
theorem erase_sequence (env : Ext) (self st1 : ConsoleStatCalc) (t : Tick) (w : Written)
    (hpass : self._cp + 1000000 ≤ t.now) (hr : calculateStat env self t = some (st1, w)) :
    w.text = w.erase.getD "" ++ w.summary.getD "" ++ w.status.getD ""
    ∧ (t.isatty = 1 → 1 ≤ detectCols t →
        w.erase = some ("\r" ++ String.mk (List.replicate (detectCols t) ' ') ++ "\r"))
    ∧ (t.isatty ≠ 1 → w.erase = none ∧ w.text = w.summary.getD "" ++ w.status.getD "") := by
  rw [calculateStat_passed env self t hpass] at hr
  simp only [Option.bind_eq_some, Option.some.injEq, Prod.mk.injEq] at hr
  obtain ⟨summary, -, readout, -, -, hw⟩ := hr
  subst hw
  refine ⟨rfl, ?_, ?_⟩
  · intro htty hcols
    simp only [htty, decide_True, if_true, eraseSequence, setwFill_same ' ' _ hcols]
  · intro hn
    simp [hn, Written.text]

/-- C18 (amended), at a concrete input: a terminal four columns wide. -/
theorem erase_sequence_witness :
    fourthWritten.erase
      = some ("\r" ++ String.mk
          (List.replicate (detectCols (tickAt 4000000 1 (some 4) [someGroup])) ' ') ++ "\r") :=
  (erase_sequence sampleExt
    { _cp := 3000000, _summaryInterval := 2, _summaryIntervalCount := 1 }
    { _cp := 4000000, _summaryInterval := 2, _summaryIntervalCount := 0 }
    (tickAt 4000000 1 (some 4) [someGroup]) fourthWritten (by decide) (by decide)).2.1
    (by decide) (by decide)

/-! ### The counter (lines 155, 167, 179-182) -/

/-- One call on a registry with a group keeps the counter within `[0, N-1]`. -/
theorem counter_step (env : Ext) (N : Int) (hN : 0 < N) (self st1 : ConsoleStatCalc)
    (t : Tick) (w : Written) (hint : self._summaryInterval = N)
    (h0 : 0 ≤ self._summaryIntervalCount) (hlt : self._summaryIntervalCount < N)
    (hne : t.requestGroupMan.countRequestGroup > 0)
    (hr : calculateStat env self t = some (st1, w)) :
    st1._summaryInterval = N ∧ 0 ≤ st1._summaryIntervalCount ∧ st1._summaryIntervalCount < N
    ∧ (t.now < self._cp + 1000000 → st1 = self ∧ w = Written.nothing)
    ∧ (self._cp + 1000000 ≤ t.now →
        (w.summary.isSome = true ↔ st1._summaryIntervalCount = 0)
        ∧ (st1._summaryIntervalCount = 0 ↔ self._summaryIntervalCount + 1 = N)
        ∧ (st1._summaryIntervalCount ≠ 0 →
            st1._summaryIntervalCount = self._summaryIntervalCount + 1)) := by
  by_cases hpass : self._cp + 1000000 ≤ t.now
  · obtain ⟨-, hint1, hsum, hcnt⟩ := calculateStat_step env self st1 t w hpass hr
    have hdue := summaryDue_iff N self._summaryIntervalCount t.requestGroupMan hN h0 hlt hne
    rw [hint] at hsum hcnt
    by_cases hd : summaryDue N (self._summaryIntervalCount + 1) t.requestGroupMan = true
    · rw [if_pos hd] at hcnt
      have heq := hdue.1 hd
      refine ⟨by rw [hint1, hint], by omega, by omega, fun h => absurd hpass (by omega), ?_⟩
      intro _
      exact ⟨⟨fun _ => hcnt, fun _ => hsum.2 hd⟩, ⟨fun _ => heq, fun _ => hcnt⟩,
        fun h => absurd hcnt h⟩
    · rw [if_neg hd] at hcnt
      have hneq : ¬ (self._summaryIntervalCount + 1 = N) := fun h => hd (hdue.2 h)
      refine ⟨by rw [hint1, hint], by omega, by omega, fun h => absurd hpass (by omega), ?_⟩
      intro _
      refine ⟨⟨fun h => absurd (hsum.1 h) hd, fun h => by omega⟩,
        ⟨fun h => by omega, fun h => absurd h hneq⟩, fun _ => hcnt⟩
  · rw [calculateStat_gated env self t (by omega)] at hr
    simp only [Option.some.injEq, Prod.mk.injEq] at hr
    obtain ⟨h1, h2⟩ := hr
    subst h1 h2
    exact ⟨hint, h0, hlt, fun _ => ⟨rfl, rfl⟩, fun h => absurd h hpass⟩

/-- Along a run on registries with a group, the state reached after any number
of calls has its counter within `[0, N-1]`. -/
theorem counter_run (env : Ext) (N : Int) (hN : 0 < N) :
    ∀ (pre post : List Tick) (self stF : ConsoleStatCalc) (outs : List Written),
      self._summaryInterval = N → 0 ≤ self._summaryIntervalCount →
      self._summaryIntervalCount < N →
      (∀ t ∈ pre, t.requestGroupMan.countRequestGroup > 0) →
      runTicks env self (pre ++ post) = some (stF, outs) →
      ∃ (mid : ConsoleStatCalc) (outsPre : List Written),
        runTicks env self pre = some (mid, outsPre)
        ∧ mid._summaryInterval = N ∧ 0 ≤ mid._summaryIntervalCount
        ∧ mid._summaryIntervalCount < N := by
  intro pre
  induction pre with
  | nil =>
    intro post self stF outs hint h0 hlt _ _
    exact ⟨self, [], rfl, hint, h0, hlt⟩
  | cons t rest ih =>
    intro post self stF outs hint h0 hlt hne hrun
    simp only [List.cons_append, runTicks, Option.bind_eq_some, Option.map_eq_some',
      Prod.mk.injEq] at hrun
    obtain ⟨⟨st1, w1⟩, hstep, ⟨st2, ws⟩, hrest, -, -⟩ := hrun
    obtain ⟨hint1, h01, hlt1, -, -⟩ := counter_step env N hN self st1 t w1 hint h0 hlt
      (hne t (List.mem_cons_self t rest)) hstep
    obtain ⟨mid, outsPre, hpre, hm⟩ := ih post st1 st2 ws hint1 h01 hlt1
      (fun u hu => hne u (List.mem_cons_of_mem t hu)) hrest
    exact ⟨mid, w1 :: outsPre, by simp [runTicks, hstep, hpre], hm⟩

/-- C19: for a summary interval `N > 0`, (a) a call on a registry with a group
from a state with `0 <= count < N` that returns leaves `0 <= count < N`: a gated
call changes nothing, a call that passes either writes a summary block and
leaves the counter at 0, which happens exactly when the incremented counter
equals `N`, or writes no summary block and leaves the counter incremented by
one; (b) the constructed object has counter 0; (c) along every run from the
constructed object in which every call sees a registry with a group, the state
after any number of calls has its counter in `[0, N-1]`. -/
theorem counter_invariant (env : Ext) (N : Int) (hN : 0 < N) :
    (∀ (self st1 : ConsoleStatCalc) (t : Tick) (w : Written),
        self._summaryInterval = N → 0 ≤ self._summaryIntervalCount →
        self._summaryIntervalCount < N → t.requestGroupMan.countRequestGroup > 0 →
        calculateStat env self t = some (st1, w) →
        st1._summaryInterval = N ∧ 0 ≤ st1._summaryIntervalCount
        ∧ st1._summaryIntervalCount < N
        ∧ (t.now < self._cp + 1000000 → st1 = self ∧ w = Written.nothing)
        ∧ (self._cp + 1000000 ≤ t.now →
            (w.summary.isSome = true ↔ st1._summaryIntervalCount = 0)
            ∧ (st1._summaryIntervalCount = 0 ↔ self._summaryIntervalCount + 1 = N)
            ∧ (st1._summaryIntervalCount ≠ 0 →
                st1._summaryIntervalCount = self._summaryIntervalCount + 1)))
    ∧ (∀ now0 : Nat, (ConsoleStatCalc.new N now0)._summaryInterval = N
        ∧ (ConsoleStatCalc.new N now0)._summaryIntervalCount = 0)
    ∧ (∀ (now0 : Nat) (pre post : List Tick) (stF : ConsoleStatCalc) (outs : List Written),
        (∀ t ∈ pre, t.requestGroupMan.countRequestGroup > 0) →
        runTicks env (ConsoleStatCalc.new N now0) (pre ++ post) = some (stF, outs) →
        ∃ (mid : ConsoleStatCalc) (outsPre : List Written),
          runTicks env (ConsoleStatCalc.new N now0) pre = some (mid, outsPre)
          ∧ mid._summaryInterval = N ∧ 0 ≤ mid._summaryIntervalCount
          ∧ mid._summaryIntervalCount < N) := by
  refine ⟨?_, fun now0 => ⟨rfl, rfl⟩, ?_⟩
  · intro self st1 t w hint h0 hlt hne hr
    exact counter_step env N hN self st1 t w hint h0 hlt hne hr
  · intro now0 pre post stF outs hne hrun
    exact counter_run env N hN pre post (ConsoleStatCalc.new N now0) stF outs rfl
      (le_refl _) hN hne hrun

/-- C19, at a concrete input: with interval 2, after the first three calls of
`fourTicks` the counter is 1, within `[0, 1]`. -/
theorem counter_invariant_witness :
    ∃ (mid : ConsoleStatCalc) (outsPre : List Written),
      runTicks sampleExt (ConsoleStatCalc.new 2 0) (fourTicks.take 3) = some (mid, outsPre)
      ∧ mid._summaryInterval = 2 ∧ 0 ≤ mid._summaryIntervalCount
      ∧ mid._summaryIntervalCount < 2 :=
  (counter_invariant sampleExt 2 (by decide)).2.2 0 (fourTicks.take 3) (fourTicks.drop 3)
    fourTicksRun.1 fourTicksRun.2 (by decide) (by decide)

/-- C20: a call that passes the gate (a) on an empty registry writes no summary
block and leaves the counter incremented by exactly one, whatever the interval
and the counter, and (b) on a registry with a group writes a summary block
exactly when the interval is positive and divides the incremented counter,
leaving the counter at 0 in that case and
incremented by one otherwise. -/
theorem empty_registry_never_summarises (env : Ext) (self st1 : ConsoleStatCalc) (t : Tick)
    (w : Written) (hpass : self._cp + 1000000 ≤ t.now)
    (hr : calculateStat env self t = some (st1, w)) :
    st1._summaryInterval = self._summaryInterval
    ∧ (t.requestGroupMan.countRequestGroup = 0 →
        w.summary = none ∧ st1._summaryIntervalCount = self._summaryIntervalCount + 1)
    ∧ (t.requestGroupMan.countRequestGroup > 0 →
        (w.summary.isSome = true ↔
          (0 < self._summaryInterval
            ∧ self._summaryInterval ∣ self._summaryIntervalCount + 1))
        ∧ st1._summaryIntervalCount =
            (if 0 < self._summaryInterval
                ∧ self._summaryInterval ∣ self._summaryIntervalCount + 1 then 0
             else self._summaryIntervalCount + 1)) := by
  obtain ⟨-, hint, hsum, hcnt⟩ := calculateStat_step env self st1 t w hpass hr
  refine ⟨hint, ?_, ?_⟩
  · intro hzero
    have hdue : summaryDue self._summaryInterval (self._summaryIntervalCount + 1)
        t.requestGroupMan = false := by
      simp [summaryDue, hzero]
    rw [hdue] at hsum hcnt
    refine ⟨?_, by simpa using hcnt⟩
    cases hs : w.summary with
    | none => rfl
    | some s => simp [hs] at hsum
  · intro hpos
    have hdue : summaryDue self._summaryInterval (self._summaryIntervalCount + 1)
        t.requestGroupMan = true ↔
        (0 < self._summaryInterval
          ∧ self._summaryInterval ∣ self._summaryIntervalCount + 1) := by
      simp [summaryDue, hpos, Int.dvd_iff_tmod_eq_zero]
    refine ⟨hsum.trans hdue, ?_⟩
    rw [hcnt]
    by_cases hd : summaryDue self._summaryInterval (self._summaryIntervalCount + 1)
        t.requestGroupMan = true
    · rw [if_pos hd, if_pos (hdue.1 hd)]
    · rw [if_neg hd, if_neg (fun h => hd (hdue.2 h))]

/-- C20, at a concrete input: with interval 2 and counter 1 a call on an empty
registry leaves the counter at 2, a multiple of the interval, without a summary
block; and in a run of three such calls followed by a call with a group the
counter reaches 3, beyond the interval, and the summary block comes with the
fourth call, when the counter reaches 4. -/
theorem empty_registry_never_summarises_witness :
    (({ erase := none, summary := none, status := some "\n" } : Written).summary = none
      ∧ ({ _cp := 2000000, _summaryInterval := 2, _summaryIntervalCount := 2 }
          : ConsoleStatCalc)._summaryIntervalCount = 1 + 1)
    ∧ (runTicks sampleExt (ConsoleStatCalc.new 2 0)
          [tickAt 1000000 0 none [], tickAt 2000000 0 none [], tickAt 3000000 0 none []]).map
        (fun r => r.1._summaryIntervalCount) = some 3
    ∧ (runTicks sampleExt (ConsoleStatCalc.new 2 0)
          [tickAt 1000000 0 none [], tickAt 2000000 0 none [], tickAt 3000000 0 none [],
           tickAt 4000000 0 none [someGroup]]).map
        (fun r => (r.1._summaryIntervalCount, r.2.map (fun w => w.summary.isSome)))
        = some (0, [false, false, false, true]) :=
  ⟨(empty_registry_never_summarises sampleExt
      { _cp := 1000000, _summaryInterval := 2, _summaryIntervalCount := 1 }
      { _cp := 2000000, _summaryInterval := 2, _summaryIntervalCount := 2 }
      (tickAt 2000000 0 none [])
      { erase := none, summary := none, status := some "\n" }
      (by decide) (by decide)).2.1 (by decide),
    by decide, by decide⟩

end aria2
